import Mathlib

/-!
# Verification of the hydroponic reservoir controller (`main.ino`)

Shallow embedding of the control logic of the Capstone-IoT-Hydroponic sketch.
The network transport (WiFi/MQTT client), board bring-up and the square-wave
pulse generator (`Flowmeter_Trigger`, which writes only the generator-local
fields `state1`, `state2`, `nextToggle1`, `nextToggle2`) are external
collaborators, outside the core per the specification's scope; publishing is
modelled as an emitted event list plus a success oracle, and inbound MQTT
traffic as an explicit message parameter.

Conventions:
* C `int` globals (`statePumpOverride`, …) are `Int`; C truthiness (`!x`,
  `x ? HIGH : LOW`) is made explicit via `cNot` / `cTruthy` / `cBit`.
* `millis()` timestamps are `Nat`; `unsigned long` subtraction is `ulSub`
  (wraparound at 2^32), and stored timestamps are reduced mod 2^32 as the
  C storage does implicitly.
* Each C function that reads `millis()` receives a single `now` argument
  (the C code may call `millis()` more than once inside one handler; the
  calls are microseconds apart and the single-instant abstraction is used).
* Pulse counters are `Nat`; the `unsigned long` wraparound at 2^32 is elided
  (both sides of every counting identity proved here would wrap together).
-/

namespace Hydro

/-- C logical negation `!x` on an `int`: 1 if the value is zero, else 0. -/
def cNot (x : Int) : Int := if x = 0 then 1 else 0

/-- C truthiness of an `int`, as used by `x ? HIGH : LOW` driving a pin. -/
def cTruthy (x : Int) : Bool := if x = 0 then false else true

/-- `(int32_t)(x ? 1 : 0)` — the value published for a sensor state. -/
def cBit (x : Int) : Int := if x = 0 then 0 else 1

/-- 2^32, the modulus of `unsigned long` on the target. -/
def U32 : Nat := 4294967296

/-- `unsigned long` subtraction `a - b` (wraparound at 2^32). -/
def ulSub (a b : Nat) : Nat := (a % U32 + (U32 - b % U32)) % U32

/-- `const unsigned long debounceDelay = 100;` -/
def debounceDelay : Nat := 100

/-- The six Adafruit IO feeds the sketch publishes to (`pump-override` is
also the sole inbound-writable one). -/
inductive Topic where
  | pumpInFlow
  | pumpReturnFlow
  | reservoirWarn
  | reservoirCritical
  | pipeOverflow
  | pumpOverride
deriving DecidableEq

/-- One attempted `publish` call: feed, integer value sent, and whether the
telemetry channel accepted it (the sketch only logs a failure). -/
structure PubEvent where
  topic : Topic
  value : Int
  ok : Bool
deriving DecidableEq

/-- The mutable globals of `main.ino` that the control logic touches
(generator-local fields of `Flowmeter_Trigger` and the network objects are
external and omitted).  Field names follow the source. -/
structure CtrlState where
  statePumpOverride : Int
  stateHFSWarn : Int
  stateHFSCritical : Int
  stateVFSPipe : Int
  lastPumpState : Int
  lastHFSWarnState : Int
  lastHFSCriticalState : Int
  lastVFSPipeState : Int
  lastPumpDebounce : Nat
  lastWarnDebounce : Nat
  lastCriticalDebounce : Nat
  lastPipeDebounce : Nat
  trgPump : Bool
  triggered : Bool
  trgHFSWarn : Bool
  trgHFSCritical : Bool
  trgVFSPipe : Bool
  pumpBtnPressed : Bool
  warnBtnPressed : Bool
  criticalBtnPressed : Bool
  pipeBtnPressed : Bool
  count1 : Nat
  count2 : Nat
  totalPulse1 : Nat
  totalPulse2 : Nat
  countUpdate : Nat
  lastUpdateCount : Nat
  firstUpdate : Bool
  lastPrint : Nat
  lastUpdate : Nat
  ledPump : Bool
  ledRW : Bool
  ledRC : Bool
  ledPOW : Bool
deriving DecidableEq

/-- Global initializers plus the `digitalWrite` calls of `setup()`
(`ledPump` HIGH, alert LEDs LOW); the statics `lastPrint`/`lastUpdate`
start at 0. -/
def initState : CtrlState where
  statePumpOverride := 1
  stateHFSWarn := 0
  stateHFSCritical := 0
  stateVFSPipe := 0
  lastPumpState := 0
  lastHFSWarnState := 1
  lastHFSCriticalState := 1
  lastVFSPipeState := 1
  lastPumpDebounce := 0
  lastWarnDebounce := 0
  lastCriticalDebounce := 0
  lastPipeDebounce := 0
  trgPump := false
  triggered := false
  trgHFSWarn := false
  trgHFSCritical := false
  trgVFSPipe := false
  pumpBtnPressed := false
  warnBtnPressed := false
  criticalBtnPressed := false
  pipeBtnPressed := false
  count1 := 0
  count2 := 0
  totalPulse1 := 0
  totalPulse2 := 0
  countUpdate := 0
  lastUpdateCount := 0
  firstUpdate := true
  lastPrint := 0
  lastUpdate := 0
  ledPump := true
  ledRW := false
  ledRC := false
  ledPOW := false

/-- `countPulse1()` — flowmeter 1 edge interrupt: `count1++`. -/
def countPulse1 (s : CtrlState) : CtrlState :=
  { s with count1 := s.count1 + 1 }

/-- `countPulse2()` — flowmeter 2 edge interrupt: `count2++`. -/
def countPulse2 (s : CtrlState) : CtrlState :=
  { s with count2 := s.count2 + 1 }

/-- `ActionPumpOverride()`: if more than `debounceDelay` ms elapsed since the
previous invocation and `lastPumpState != statePumpOverride`, toggle the pump
state, record the old one, raise the dirty flags and drive the pump LED;
always re-arm `lastPumpDebounce` to the current time. -/
def actionPumpOverride (now : Nat) (s : CtrlState) : CtrlState :=
  let s1 :=
    if debounceDelay < ulSub now s.lastPumpDebounce then
      if s.lastPumpState ≠ s.statePumpOverride then
        { s with lastPumpState := s.statePumpOverride
                 statePumpOverride := cNot s.statePumpOverride
                 trgPump := true
                 triggered := true
                 ledPump := cTruthy (cNot s.statePumpOverride) }
      else s
    else s
  { s1 with lastPumpDebounce := now % U32 }

/-- `ActionHFSWarn()` — same shape for the reservoir-warning float switch. -/
def actionHFSWarn (now : Nat) (s : CtrlState) : CtrlState :=
  let s1 :=
    if debounceDelay < ulSub now s.lastWarnDebounce then
      if s.lastHFSWarnState ≠ s.stateHFSWarn then
        { s with lastHFSWarnState := s.stateHFSWarn
                 stateHFSWarn := cNot s.stateHFSWarn
                 trgHFSWarn := true
                 triggered := true
                 ledRW := cTruthy (cNot s.stateHFSWarn) }
      else s
    else s
  { s1 with lastWarnDebounce := now % U32 }

/-- `ActionHFSCritical()` — same shape for the reservoir-critical switch. -/
def actionHFSCritical (now : Nat) (s : CtrlState) : CtrlState :=
  let s1 :=
    if debounceDelay < ulSub now s.lastCriticalDebounce then
      if s.lastHFSCriticalState ≠ s.stateHFSCritical then
        { s with lastHFSCriticalState := s.stateHFSCritical
                 stateHFSCritical := cNot s.stateHFSCritical
                 trgHFSCritical := true
                 triggered := true
                 ledRC := cTruthy (cNot s.stateHFSCritical) }
      else s
    else s
  { s1 with lastCriticalDebounce := now % U32 }

/-- `ActionVFSPipe()` — same shape for the pipe-overflow switch. -/
def actionVFSPipe (now : Nat) (s : CtrlState) : CtrlState :=
  let s1 :=
    if debounceDelay < ulSub now s.lastPipeDebounce then
      if s.lastVFSPipeState ≠ s.stateVFSPipe then
        { s with lastVFSPipeState := s.stateVFSPipe
                 stateVFSPipe := cNot s.stateVFSPipe
                 trgVFSPipe := true
                 triggered := true
                 ledPOW := cTruthy (cNot s.stateVFSPipe) }
      else s
    else s
  { s1 with lastPipeDebounce := now % U32 }

/-- `ActionPumpControl()` — the safety interlock, attached in `setup()` as a
RISING interrupt on the critical and overflow LED pins (it is not called from
`loop()`): when either hazard state reads HIGH, force the pump off
(`lastPumpState = 1; statePumpOverride = 0;`) and drive the LED.  It raises
no dirty flag. -/
def actionPumpControl (s : CtrlState) : CtrlState :=
  if s.stateVFSPipe = 1 ∨ s.stateHFSCritical = 1 then
    { s with lastPumpState := 1
             statePumpOverride := 0
             ledPump := cTruthy 0 }
  else s

/-- `Action_Btn_Pressed()` — drain the four ISR "pressed" latches, invoking
the matching handler for each one that is set. -/
def action_Btn_Pressed (now : Nat) (s : CtrlState) : CtrlState :=
  let s := if s.pumpBtnPressed then
             { actionPumpOverride now s with pumpBtnPressed := false }
           else s
  let s := if s.warnBtnPressed then
             { actionHFSWarn now s with warnBtnPressed := false }
           else s
  let s := if s.criticalBtnPressed then
             { actionHFSCritical now s with criticalBtnPressed := false }
           else s
  let s := if s.pipeBtnPressed then
             { actionVFSPipe now s with pipeBtnPressed := false }
           else s
  s

/-- A space character in the sense of C `isspace`, skipped by `atoi`. -/
def isSpaceChar (c : Char) : Bool :=
  c == ' ' || c == '\t' || c == '\n' || c == '\x0b' || c == '\x0c' || c == '\r'

/-- Digit-accumulation loop of `atoi`: consume decimal digits, stop at the
first non-digit.  (The C `int` overflow on absurdly long numerals is not
modelled; payloads are short.) -/
def atoiDigits : List Char → Nat → Nat
  | [], acc => acc
  | c :: cs, acc =>
      if c.isDigit then atoiDigits cs (10 * acc + (c.toNat - 48)) else acc

/-- C `atoi`: skip leading whitespace, optional sign, then digits; a string
with no leading numeral yields 0. -/
def cAtoi (p : String) : Int :=
  match p.toList.dropWhile isSpaceChar with
  | '-' :: cs => - (atoiDigits cs 0 : Int)
  | '+' :: cs => (atoiDigits cs 0 : Int)
  | cs => (atoiDigits cs 0 : Int)

/-- One poll of the subscription inside `readbackMQTT()`. -/
inductive Inbound where
  | nothing
  | pumpMsg (payload : String)
  | unknown
deriving DecidableEq

/-- Subscription-handling part of `readbackMQTT()` (connection upkeep and
packet pumping belong to the external transport): a message on the
pump-override feed is decoded with `atoi`; if the decoded value differs from
`statePumpOverride` it is written directly, `lastPumpState` is set to its
C-negation, the pump LED is driven, and the dirty flags are raised.  Other
subscriptions are only logged. -/
def readbackMQTT (msg : Inbound) (s : CtrlState) : CtrlState :=
  match msg with
  | .pumpMsg payload =>
      let val := cAtoi payload
      if s.statePumpOverride ≠ val then
        { s with statePumpOverride := val
                 lastPumpState := cNot val
                 ledPump := cTruthy val
                 trgPump := true
                 triggered := true }
      else s
  | _ => s

/-- `(unsigned long)(c * litresperpulse)` with `litresperpulse = 7.5f`: the
float product truncated to an integer, i.e. `⌊15 c / 2⌋`.  (Exact for every
count below 2^20, far above what a 30 s window can accumulate at the ≤ 50 Hz
simulated pulse rates.) -/
def litresOf (c : Nat) : Nat := 15 * c / 2

/-- `UpdateFlowMeters()`: when 30 s elapsed since `lastPrint` or on the first
update, atomically drain both pulse counters into the lifetime totals and
publish both litres quantities (the counter drain is inside
`noInterrupts()`/`interrupts()`; sequentially that is the atomic swap). -/
def updateFlowMeters (now : Nat) (ok : Nat → Bool) (s : CtrlState) :
    CtrlState × List PubEvent :=
  if 30000 ≤ ulSub now s.lastPrint ∨ s.firstUpdate = true then
    let c1 := s.count1
    let c2 := s.count2
    let n1 := s.countUpdate + 1
    let n2 := s.countUpdate + 2
    ({ s with totalPulse1 := s.totalPulse1 + c1
              totalPulse2 := s.totalPulse2 + c2
              count1 := 0
              count2 := 0
              countUpdate := n2
              lastPrint := now % U32 },
     [⟨Topic.pumpInFlow, (litresOf c1 : Int), ok n1⟩,
      ⟨Topic.pumpReturnFlow, (litresOf c2 : Int), ok n2⟩])
  else (s, [])

/-- First block of `UpdateSensors()` (lines 330–354): on the first update or
when any channel triggered, clear `triggered` and publish all four stable
sensor states unconditionally.  The per-quantity `trg…` flags are not
touched. -/
def sensorsForced (ok : Nat → Bool) (s : CtrlState) :
    CtrlState × List PubEvent :=
  if s.firstUpdate = true ∨ s.triggered = true then
    let n1 := s.countUpdate + 1
    let n2 := s.countUpdate + 2
    let n3 := s.countUpdate + 3
    let n4 := s.countUpdate + 4
    ({ s with triggered := false, countUpdate := n4 },
     [⟨Topic.pumpOverride, cBit s.statePumpOverride, ok n1⟩,
      ⟨Topic.reservoirWarn, cBit s.stateHFSWarn, ok n2⟩,
      ⟨Topic.reservoirCritical, cBit s.stateHFSCritical, ok n3⟩,
      ⟨Topic.pipeOverflow, cBit s.stateVFSPipe, ok n4⟩])
  else (s, [])

/-- `if (trgHFSWarn) { … }` sub-block of the 5 s cadence: publish the warning
state and clear its flag (cleared whether or not the publish succeeded). -/
def warnBlock (ok : Nat → Bool) (s : CtrlState) : CtrlState × List PubEvent :=
  if s.trgHFSWarn = true then
    let n := s.countUpdate + 1
    ({ s with countUpdate := n, trgHFSWarn := false },
     [⟨Topic.reservoirWarn, cBit s.stateHFSWarn, ok n⟩])
  else (s, [])

/-- `if (trgHFSCritical) { … }`: publish the critical state, re-arm `trgPump`
when the critical state is 1, and clear `trgHFSCritical`. -/
def criticalBlock (ok : Nat → Bool) (s : CtrlState) : CtrlState × List PubEvent :=
  if s.trgHFSCritical = true then
    let n := s.countUpdate + 1
    ({ s with countUpdate := n
              trgPump := if s.stateHFSCritical = 1 then true else s.trgPump
              trgHFSCritical := false },
     [⟨Topic.reservoirCritical, cBit s.stateHFSCritical, ok n⟩])
  else (s, [])

/-- `if (trgVFSPipe) { … }`: publish the overflow state, re-arm `trgPump`
when the overflow state is 1, and clear `trgVFSPipe`. -/
def pipeBlock (ok : Nat → Bool) (s : CtrlState) : CtrlState × List PubEvent :=
  if s.trgVFSPipe = true then
    let n := s.countUpdate + 1
    ({ s with countUpdate := n
              trgPump := if s.stateVFSPipe = 1 then true else s.trgPump
              trgVFSPipe := false },
     [⟨Topic.pipeOverflow, cBit s.stateVFSPipe, ok n⟩])
  else (s, [])

/-- `if (trgPump) { … }`: publish the pump state and clear `trgPump`. -/
def pumpBlock (ok : Nat → Bool) (s : CtrlState) : CtrlState × List PubEvent :=
  if s.trgPump = true then
    let n := s.countUpdate + 1
    ({ s with countUpdate := n, trgPump := false },
     [⟨Topic.pumpOverride, cBit s.statePumpOverride, ok n⟩])
  else (s, [])

/-- Second block of `UpdateSensors()` (lines 356–414): when 5 s elapsed since
`lastUpdate` and nothing triggered this instant, run the four per-quantity
dirty-flag blocks in source order and stamp `lastUpdate`. -/
def sensorsPeriodic (now : Nat) (ok : Nat → Bool) (s : CtrlState) :
    CtrlState × List PubEvent :=
  if 5000 ≤ ulSub now s.lastUpdate ∧ s.triggered = false then
    let r1 := warnBlock ok s
    let r2 := criticalBlock ok r1.1
    let r3 := pipeBlock ok r2.1
    let r4 := pumpBlock ok r3.1
    ({ r4.1 with lastUpdate := now % U32 }, r1.2 ++ r2.2 ++ r3.2 ++ r4.2)
  else (s, [])

/-- `UpdateSensors()` — forced block then periodic block. -/
def updateSensors (now : Nat) (ok : Nat → Bool) (s : CtrlState) :
    CtrlState × List PubEvent :=
  let fp := sensorsForced ok s
  let pp := sensorsPeriodic now ok fp.1
  (pp.1, fp.2 ++ pp.2)

/-- `Update_Feeds()`: flow meters, then sensors, then `firstUpdate = false`. -/
def update_Feeds (now : Nat) (ok : Nat → Bool) (s : CtrlState) :
    CtrlState × List PubEvent :=
  let fp := updateFlowMeters now ok s
  let sp := updateSensors now ok fp.1
  ({ sp.1 with firstUpdate := false }, fp.2 ++ sp.2)

/-- One iteration of `loop()`: poll the subscription, (pulse-generator step —
external, touches no controller state), drain pressed latches, update feeds,
sync `lastUpdateCount`. -/
def loopCycle (msg : Inbound) (now : Nat) (ok : Nat → Bool) (s : CtrlState) :
    CtrlState × List PubEvent :=
  let s := readbackMQTT msg s
  let s := action_Btn_Pressed now s
  let sp := update_Feeds now ok s
  let s := sp.1
  let s := if s.lastUpdateCount < s.countUpdate then
             { s with lastUpdateCount := s.countUpdate }
           else s
  (s, sp.2)

/-- Occurrences of a topic in an emitted publish list. -/
def countTopic (t : Topic) (l : List PubEvent) : Nat :=
  l.countP (fun e => decide (e.topic = t))

/-- Values attempted on one topic, in order. -/
def valuesOn (t : Topic) (l : List PubEvent) : List Int :=
  (l.filter (fun e => decide (e.topic = t))).map (fun e => e.value)

/-- The publish attempts with the success bit stripped: which feed was
written with which value, in order. -/
def attempts (l : List PubEvent) : List (Topic × Int) :=
  l.map (fun e => (e.topic, e.value))

/-- Every entry point that can mutate the controller state: the four
button-press handlers (dispatched by `Action_Btn_Pressed`), the interlock
interrupt, one poll of the subscription, one `Update_Feeds` pass, and the
two flow-pulse interrupts. -/
inductive SysOp where
  | pressPump (now : Nat)
  | pressWarn (now : Nat)
  | pressCritical (now : Nat)
  | pressPipe (now : Nat)
  | interlock
  | remote (msg : Inbound)
  | feeds (now : Nat) (ok : Nat → Bool)
  | edgeFlow1
  | edgeFlow2

/-- Apply one entry point to the state (publish output discarded). -/
def sysStep (s : CtrlState) : SysOp → CtrlState
  | .pressPump now => actionPumpOverride now s
  | .pressWarn now => actionHFSWarn now s
  | .pressCritical now => actionHFSCritical now s
  | .pressPipe now => actionVFSPipe now s
  | .interlock => actionPumpControl s
  | .remote m => readbackMQTT m s
  | .feeds now ok => (update_Feeds now ok s).1
  | .edgeFlow1 => countPulse1 s
  | .edgeFlow2 => countPulse2 s

/-- Run a sequence of entry points. -/
def sysRun (s : CtrlState) (ops : List SysOp) : CtrlState :=
  ops.foldl sysStep s

/-- Operations that carry an explicit pump command: a physical pump-switch
press or an inbound message on the pump-override feed. -/
def isPumpCommand : SysOp → Bool
  | .pressPump _ => true
  | .remote (.pumpMsg _) => true
  | _ => false

/-- Run `ActionPumpOverride` at each timestamp of the list in turn — the
sample stream the pump channel actually sees (one invocation per latched
RISING edge). -/
def pumpRun (s : CtrlState) (ts : List Nat) : CtrlState :=
  ts.foldl (fun s t => actionPumpOverride t s) s

/-- Number of invocations in the list at which the stable pump level
(`statePumpOverride`) actually changes. -/
def pumpChanges : CtrlState → List Nat → Nat
  | _, [] => 0
  | s, t :: ts =>
      (if (actionPumpOverride t s).statePumpOverride = s.statePumpOverride
       then 0 else 1) + pumpChanges (actionPumpOverride t s) ts

/-- The eight `state…`/`last…State` fields as one tuple (the four
debounced-pair fields). -/
def pairs (s : CtrlState) :
    Int × Int × Int × Int × Int × Int × Int × Int :=
  (s.statePumpOverride, s.lastPumpState,
   s.stateHFSWarn, s.lastHFSWarnState,
   s.stateHFSCritical, s.lastHFSCriticalState,
   s.stateVFSPipe, s.lastVFSPipeState)

/-- Complement relation in the weak, direction-agnostic form: one member of
the pair is the C-negation of the other.  Either direction forces
`last ≠ state`, which is what lets the next toggle commit. -/
def pairInv (last st : Int) : Prop := last = cNot st ∨ st = cNot last

/-- Strong form for the float-switch pairs, whose state stays boolean:
the state is 0 or 1 and the last-state is exactly its C-negation. -/
def boolPair (last st : Int) : Prop := (st = 0 ∨ st = 1) ∧ last = cNot st

/-- Controller invariant over the four debounced pairs.  The pump pair only
satisfies the weak form because an inbound payload may decode to an integer
outside {0,1}. -/
def ctrlInv (s : CtrlState) : Prop :=
  pairInv s.lastPumpState s.statePumpOverride ∧
  boolPair s.lastHFSWarnState s.stateHFSWarn ∧
  boolPair s.lastHFSCriticalState s.stateHFSCritical ∧
  boolPair s.lastVFSPipeState s.stateVFSPipe

end Hydro

namespace Hydro

theorem cNot_ne_self (x : Int) : cNot x ≠ x := by
  unfold cNot; split <;> omega

theorem cNot_cNot_of_bool {x : Int} (h : x = 0 ∨ x = 1) : cNot (cNot x) = x := by
  rcases h with h | h <;> simp [h, cNot]

theorem cNot_bool (x : Int) : cNot x = 0 ∨ cNot x = 1 := by
  unfold cNot; split <;> simp

theorem ulSub_eq_sub {a b : Nat} (hba : b ≤ a) (ha : a < U32) : ulSub a b = a - b := by
  unfold ulSub U32 at *; omega

theorem pairs_eq_fields {a b : CtrlState} (h : pairs a = pairs b) :
    a.statePumpOverride = b.statePumpOverride ∧ a.lastPumpState = b.lastPumpState ∧
    a.stateHFSWarn = b.stateHFSWarn ∧ a.lastHFSWarnState = b.lastHFSWarnState ∧
    a.stateHFSCritical = b.stateHFSCritical ∧
    a.lastHFSCriticalState = b.lastHFSCriticalState ∧
    a.stateVFSPipe = b.stateVFSPipe ∧ a.lastVFSPipeState = b.lastVFSPipeState := by
  unfold pairs at h
  simp only [Prod.mk.injEq] at h
  exact h

theorem pairs_updateFlowMeters (now : Nat) (ok : Nat → Bool) (s : CtrlState) :
    pairs (updateFlowMeters now ok s).1 = pairs s := by
  unfold updateFlowMeters; split <;> rfl

theorem pairs_sensorsForced (ok : Nat → Bool) (s : CtrlState) :
    pairs (sensorsForced ok s).1 = pairs s := by
  unfold sensorsForced; split <;> rfl

theorem pairs_warnBlock (ok : Nat → Bool) (s : CtrlState) :
    pairs (warnBlock ok s).1 = pairs s := by
  unfold warnBlock; split <;> rfl

theorem pairs_criticalBlock (ok : Nat → Bool) (s : CtrlState) :
    pairs (criticalBlock ok s).1 = pairs s := by
  unfold criticalBlock; split <;> rfl

theorem pairs_pipeBlock (ok : Nat → Bool) (s : CtrlState) :
    pairs (pipeBlock ok s).1 = pairs s := by
  unfold pipeBlock; split <;> rfl

theorem pairs_pumpBlock (ok : Nat → Bool) (s : CtrlState) :
    pairs (pumpBlock ok s).1 = pairs s := by
  unfold pumpBlock; split <;> rfl

theorem pairs_sensorsPeriodic (now : Nat) (ok : Nat → Bool) (s : CtrlState) :
    pairs (sensorsPeriodic now ok s).1 = pairs s := by
  unfold sensorsPeriodic
  split
  · show pairs (pumpBlock ok (pipeBlock ok (criticalBlock ok (warnBlock ok s).1).1).1).1 = pairs s
    rw [pairs_pumpBlock, pairs_pipeBlock, pairs_criticalBlock, pairs_warnBlock]
  · rfl

theorem pairs_updateSensors (now : Nat) (ok : Nat → Bool) (s : CtrlState) :
    pairs (updateSensors now ok s).1 = pairs s := by
  unfold updateSensors
  rw [pairs_sensorsPeriodic, pairs_sensorsForced]

theorem pairs_update_Feeds (now : Nat) (ok : Nat → Bool) (s : CtrlState) :
    pairs (update_Feeds now ok s).1 = pairs s := by
  unfold update_Feeds
  show pairs (updateSensors now ok (updateFlowMeters now ok s).1).1 = pairs s
  rw [pairs_updateSensors, pairs_updateFlowMeters]

end Hydro

namespace Hydro

theorem flowMeters_misc (now : Nat) (ok : Nat → Bool) (s : CtrlState) :
    (updateFlowMeters now ok s).1.trgPump = s.trgPump ∧
    (updateFlowMeters now ok s).1.trgHFSWarn = s.trgHFSWarn ∧
    (updateFlowMeters now ok s).1.trgHFSCritical = s.trgHFSCritical ∧
    (updateFlowMeters now ok s).1.trgVFSPipe = s.trgVFSPipe ∧
    (updateFlowMeters now ok s).1.triggered = s.triggered ∧
    (updateFlowMeters now ok s).1.firstUpdate = s.firstUpdate := by
  unfold updateFlowMeters; split <;> exact ⟨rfl, rfl, rfl, rfl, rfl, rfl⟩

theorem sensorsForced_misc (ok : Nat → Bool) (s : CtrlState) :
    (sensorsForced ok s).1.trgPump = s.trgPump ∧
    (sensorsForced ok s).1.trgHFSWarn = s.trgHFSWarn ∧
    (sensorsForced ok s).1.trgHFSCritical = s.trgHFSCritical ∧
    (sensorsForced ok s).1.trgVFSPipe = s.trgVFSPipe ∧
    (sensorsForced ok s).1.firstUpdate = s.firstUpdate ∧
    (sensorsForced ok s).1.lastUpdate = s.lastUpdate := by
  unfold sensorsForced; split <;> exact ⟨rfl, rfl, rfl, rfl, rfl, rfl⟩

theorem warnBlock_flags (ok : Nat → Bool) (s : CtrlState) :
    (warnBlock ok s).1.trgHFSWarn = false ∧
    (warnBlock ok s).1.trgHFSCritical = s.trgHFSCritical ∧
    (warnBlock ok s).1.trgVFSPipe = s.trgVFSPipe ∧
    (warnBlock ok s).1.trgPump = s.trgPump := by
  unfold warnBlock; split <;> simp_all

theorem criticalBlock_flags (ok : Nat → Bool) (s : CtrlState) :
    (criticalBlock ok s).1.trgHFSCritical = false ∧
    (criticalBlock ok s).1.trgHFSWarn = s.trgHFSWarn ∧
    (criticalBlock ok s).1.trgVFSPipe = s.trgVFSPipe := by
  unfold criticalBlock; split <;> simp_all

theorem criticalBlock_trgPump (ok : Nat → Bool) (s : CtrlState) :
    (criticalBlock ok s).1.trgPump = true →
    s.trgPump = true ∨ s.stateHFSCritical = 1 := by
  unfold criticalBlock
  split
  · intro h
    by_cases hc : s.stateHFSCritical = 1
    · exact Or.inr hc
    · left; simpa [hc] using h
  · exact fun h => Or.inl h

theorem pipeBlock_flags (ok : Nat → Bool) (s : CtrlState) :
    (pipeBlock ok s).1.trgVFSPipe = false ∧
    (pipeBlock ok s).1.trgHFSWarn = s.trgHFSWarn ∧
    (pipeBlock ok s).1.trgHFSCritical = s.trgHFSCritical := by
  unfold pipeBlock; split <;> simp_all

theorem pipeBlock_trgPump (ok : Nat → Bool) (s : CtrlState) :
    (pipeBlock ok s).1.trgPump = true →
    s.trgPump = true ∨ s.stateVFSPipe = 1 := by
  unfold pipeBlock
  split
  · intro h
    by_cases hc : s.stateVFSPipe = 1
    · exact Or.inr hc
    · left; simpa [hc] using h
  · exact fun h => Or.inl h

theorem pumpBlock_flags (ok : Nat → Bool) (s : CtrlState) :
    (pumpBlock ok s).1.trgPump = false ∧
    (pumpBlock ok s).1.trgHFSWarn = s.trgHFSWarn ∧
    (pumpBlock ok s).1.trgHFSCritical = s.trgHFSCritical ∧
    (pumpBlock ok s).1.trgVFSPipe = s.trgVFSPipe := by
  unfold pumpBlock; split <;> simp_all

end Hydro

namespace Hydro

theorem apo_misc (now : Nat) (s : CtrlState) :
    (actionPumpOverride now s).stateHFSWarn = s.stateHFSWarn ∧
    (actionPumpOverride now s).lastHFSWarnState = s.lastHFSWarnState ∧
    (actionPumpOverride now s).stateHFSCritical = s.stateHFSCritical ∧
    (actionPumpOverride now s).lastHFSCriticalState = s.lastHFSCriticalState ∧
    (actionPumpOverride now s).stateVFSPipe = s.stateVFSPipe ∧
    (actionPumpOverride now s).lastVFSPipeState = s.lastVFSPipeState ∧
    (actionPumpOverride now s).trgHFSWarn = s.trgHFSWarn ∧
    (actionPumpOverride now s).trgHFSCritical = s.trgHFSCritical ∧
    (actionPumpOverride now s).trgVFSPipe = s.trgVFSPipe := by
  unfold actionPumpOverride
  split <;> (try split) <;> exact ⟨rfl, rfl, rfl, rfl, rfl, rfl, rfl, rfl, rfl⟩

theorem ahw_misc (now : Nat) (s : CtrlState) :
    (actionHFSWarn now s).statePumpOverride = s.statePumpOverride ∧
    (actionHFSWarn now s).lastPumpState = s.lastPumpState ∧
    (actionHFSWarn now s).stateHFSCritical = s.stateHFSCritical ∧
    (actionHFSWarn now s).lastHFSCriticalState = s.lastHFSCriticalState ∧
    (actionHFSWarn now s).stateVFSPipe = s.stateVFSPipe ∧
    (actionHFSWarn now s).lastVFSPipeState = s.lastVFSPipeState ∧
    (actionHFSWarn now s).trgPump = s.trgPump ∧
    (actionHFSWarn now s).trgHFSCritical = s.trgHFSCritical ∧
    (actionHFSWarn now s).trgVFSPipe = s.trgVFSPipe := by
  unfold actionHFSWarn
  split <;> (try split) <;> exact ⟨rfl, rfl, rfl, rfl, rfl, rfl, rfl, rfl, rfl⟩

theorem ahc_misc (now : Nat) (s : CtrlState) :
    (actionHFSCritical now s).statePumpOverride = s.statePumpOverride ∧
    (actionHFSCritical now s).lastPumpState = s.lastPumpState ∧
    (actionHFSCritical now s).stateHFSWarn = s.stateHFSWarn ∧
    (actionHFSCritical now s).lastHFSWarnState = s.lastHFSWarnState ∧
    (actionHFSCritical now s).stateVFSPipe = s.stateVFSPipe ∧
    (actionHFSCritical now s).lastVFSPipeState = s.lastVFSPipeState ∧
    (actionHFSCritical now s).trgPump = s.trgPump ∧
    (actionHFSCritical now s).trgHFSWarn = s.trgHFSWarn ∧
    (actionHFSCritical now s).trgVFSPipe = s.trgVFSPipe := by
  unfold actionHFSCritical
  split <;> (try split) <;> exact ⟨rfl, rfl, rfl, rfl, rfl, rfl, rfl, rfl, rfl⟩

theorem avp_misc (now : Nat) (s : CtrlState) :
    (actionVFSPipe now s).statePumpOverride = s.statePumpOverride ∧
    (actionVFSPipe now s).lastPumpState = s.lastPumpState ∧
    (actionVFSPipe now s).stateHFSWarn = s.stateHFSWarn ∧
    (actionVFSPipe now s).lastHFSWarnState = s.lastHFSWarnState ∧
    (actionVFSPipe now s).stateHFSCritical = s.stateHFSCritical ∧
    (actionVFSPipe now s).lastHFSCriticalState = s.lastHFSCriticalState ∧
    (actionVFSPipe now s).trgPump = s.trgPump ∧
    (actionVFSPipe now s).trgHFSWarn = s.trgHFSWarn ∧
    (actionVFSPipe now s).trgHFSCritical = s.trgHFSCritical := by
  unfold actionVFSPipe
  split <;> (try split) <;> exact ⟨rfl, rfl, rfl, rfl, rfl, rfl, rfl, rfl, rfl⟩

theorem apc_misc (s : CtrlState) :
    (actionPumpControl s).stateHFSWarn = s.stateHFSWarn ∧
    (actionPumpControl s).lastHFSWarnState = s.lastHFSWarnState ∧
    (actionPumpControl s).stateHFSCritical = s.stateHFSCritical ∧
    (actionPumpControl s).lastHFSCriticalState = s.lastHFSCriticalState ∧
    (actionPumpControl s).stateVFSPipe = s.stateVFSPipe ∧
    (actionPumpControl s).lastVFSPipeState = s.lastVFSPipeState ∧
    (actionPumpControl s).trgPump = s.trgPump ∧
    (actionPumpControl s).trgHFSWarn = s.trgHFSWarn ∧
    (actionPumpControl s).trgHFSCritical = s.trgHFSCritical ∧
    (actionPumpControl s).trgVFSPipe = s.trgVFSPipe := by
  unfold actionPumpControl
  split <;> exact ⟨rfl, rfl, rfl, rfl, rfl, rfl, rfl, rfl, rfl, rfl⟩

theorem rb_misc (msg : Inbound) (s : CtrlState) :
    (readbackMQTT msg s).stateHFSWarn = s.stateHFSWarn ∧
    (readbackMQTT msg s).lastHFSWarnState = s.lastHFSWarnState ∧
    (readbackMQTT msg s).stateHFSCritical = s.stateHFSCritical ∧
    (readbackMQTT msg s).lastHFSCriticalState = s.lastHFSCriticalState ∧
    (readbackMQTT msg s).stateVFSPipe = s.stateVFSPipe ∧
    (readbackMQTT msg s).lastVFSPipeState = s.lastVFSPipeState ∧
    (readbackMQTT msg s).trgHFSWarn = s.trgHFSWarn ∧
    (readbackMQTT msg s).trgHFSCritical = s.trgHFSCritical ∧
    (readbackMQTT msg s).trgVFSPipe = s.trgVFSPipe := by
  cases msg with
  | nothing => exact ⟨rfl, rfl, rfl, rfl, rfl, rfl, rfl, rfl, rfl⟩
  | unknown => exact ⟨rfl, rfl, rfl, rfl, rfl, rfl, rfl, rfl, rfl⟩
  | pumpMsg p =>
      simp only [readbackMQTT]
      split <;> exact ⟨rfl, rfl, rfl, rfl, rfl, rfl, rfl, rfl, rfl⟩

theorem apo_lastDebounce (now : Nat) (s : CtrlState) :
    (actionPumpOverride now s).lastPumpDebounce = now % U32 := rfl

theorem apo_not_elapsed {now : Nat} {s : CtrlState}
    (h : ulSub now s.lastPumpDebounce ≤ debounceDelay) :
    actionPumpOverride now s = { s with lastPumpDebounce := now % U32 } := by
  unfold actionPumpOverride
  rw [if_neg (Nat.not_lt.mpr h)]

theorem apo_elapsed_toggle {now : Nat} {s : CtrlState}
    (h1 : debounceDelay < ulSub now s.lastPumpDebounce)
    (h2 : s.lastPumpState ≠ s.statePumpOverride) :
    actionPumpOverride now s =
      { s with lastPumpState := s.statePumpOverride
               statePumpOverride := cNot s.statePumpOverride
               trgPump := true
               triggered := true
               ledPump := cTruthy (cNot s.statePumpOverride)
               lastPumpDebounce := now % U32 } := by
  unfold actionPumpOverride
  rw [if_pos h1, if_pos h2]

theorem apo_elapsed_same {now : Nat} {s : CtrlState}
    (h1 : debounceDelay < ulSub now s.lastPumpDebounce)
    (h2 : s.lastPumpState = s.statePumpOverride) :
    actionPumpOverride now s = { s with lastPumpDebounce := now % U32 } := by
  unfold actionPumpOverride
  rw [if_pos h1, if_neg (not_ne_iff.mpr h2)]

theorem apo_change {now : Nat} {s : CtrlState}
    (h : (actionPumpOverride now s).statePumpOverride ≠ s.statePumpOverride) :
    debounceDelay < ulSub now s.lastPumpDebounce ∧
    (actionPumpOverride now s).statePumpOverride = cNot s.statePumpOverride := by
  by_cases h1 : debounceDelay < ulSub now s.lastPumpDebounce
  · by_cases h2 : s.lastPumpState = s.statePumpOverride
    · rw [apo_elapsed_same h1 h2] at h
      exact absurd rfl h
    · exact ⟨h1, by rw [apo_elapsed_toggle h1 h2]⟩
  · rw [apo_not_elapsed (Nat.not_lt.mp h1)] at h
    exact absurd rfl h

end Hydro

namespace Hydro

theorem ahw_not_elapsed {now : Nat} {s : CtrlState}
    (h : ulSub now s.lastWarnDebounce ≤ debounceDelay) :
    actionHFSWarn now s = { s with lastWarnDebounce := now % U32 } := by
  unfold actionHFSWarn
  rw [if_neg (Nat.not_lt.mpr h)]

theorem ahw_toggle {now : Nat} {s : CtrlState}
    (h1 : debounceDelay < ulSub now s.lastWarnDebounce)
    (h2 : s.lastHFSWarnState ≠ s.stateHFSWarn) :
    actionHFSWarn now s =
      { s with lastHFSWarnState := s.stateHFSWarn
               stateHFSWarn := cNot s.stateHFSWarn
               trgHFSWarn := true
               triggered := true
               ledRW := cTruthy (cNot s.stateHFSWarn)
               lastWarnDebounce := now % U32 } := by
  unfold actionHFSWarn
  rw [if_pos h1, if_pos h2]

theorem ahw_same {now : Nat} {s : CtrlState}
    (h1 : debounceDelay < ulSub now s.lastWarnDebounce)
    (h2 : s.lastHFSWarnState = s.stateHFSWarn) :
    actionHFSWarn now s = { s with lastWarnDebounce := now % U32 } := by
  unfold actionHFSWarn
  rw [if_pos h1, if_neg (not_ne_iff.mpr h2)]

theorem ahc_not_elapsed {now : Nat} {s : CtrlState}
    (h : ulSub now s.lastCriticalDebounce ≤ debounceDelay) :
    actionHFSCritical now s = { s with lastCriticalDebounce := now % U32 } := by
  unfold actionHFSCritical
  rw [if_neg (Nat.not_lt.mpr h)]

theorem ahc_toggle {now : Nat} {s : CtrlState}
    (h1 : debounceDelay < ulSub now s.lastCriticalDebounce)
    (h2 : s.lastHFSCriticalState ≠ s.stateHFSCritical) :
    actionHFSCritical now s =
      { s with lastHFSCriticalState := s.stateHFSCritical
               stateHFSCritical := cNot s.stateHFSCritical
               trgHFSCritical := true
               triggered := true
               ledRC := cTruthy (cNot s.stateHFSCritical)
               lastCriticalDebounce := now % U32 } := by
  unfold actionHFSCritical
  rw [if_pos h1, if_pos h2]

theorem ahc_same {now : Nat} {s : CtrlState}
    (h1 : debounceDelay < ulSub now s.lastCriticalDebounce)
    (h2 : s.lastHFSCriticalState = s.stateHFSCritical) :
    actionHFSCritical now s = { s with lastCriticalDebounce := now % U32 } := by
  unfold actionHFSCritical
  rw [if_pos h1, if_neg (not_ne_iff.mpr h2)]

theorem avp_not_elapsed {now : Nat} {s : CtrlState}
    (h : ulSub now s.lastPipeDebounce ≤ debounceDelay) :
    actionVFSPipe now s = { s with lastPipeDebounce := now % U32 } := by
  unfold actionVFSPipe
  rw [if_neg (Nat.not_lt.mpr h)]

theorem avp_toggle {now : Nat} {s : CtrlState}
    (h1 : debounceDelay < ulSub now s.lastPipeDebounce)
    (h2 : s.lastVFSPipeState ≠ s.stateVFSPipe) :
    actionVFSPipe now s =
      { s with lastVFSPipeState := s.stateVFSPipe
               stateVFSPipe := cNot s.stateVFSPipe
               trgVFSPipe := true
               triggered := true
               ledPOW := cTruthy (cNot s.stateVFSPipe)
               lastPipeDebounce := now % U32 } := by
  unfold actionVFSPipe
  rw [if_pos h1, if_pos h2]

theorem avp_same {now : Nat} {s : CtrlState}
    (h1 : debounceDelay < ulSub now s.lastPipeDebounce)
    (h2 : s.lastVFSPipeState = s.stateVFSPipe) :
    actionVFSPipe now s = { s with lastPipeDebounce := now % U32 } := by
  unfold actionVFSPipe
  rw [if_pos h1, if_neg (not_ne_iff.mpr h2)]

theorem apc_hazard {s : CtrlState}
    (h : s.stateVFSPipe = 1 ∨ s.stateHFSCritical = 1) :
    actionPumpControl s =
      { s with lastPumpState := 1, statePumpOverride := 0,
               ledPump := cTruthy 0 } := by
  unfold actionPumpControl
  rw [if_pos h]

theorem apc_safe {s : CtrlState}
    (h : ¬(s.stateVFSPipe = 1 ∨ s.stateHFSCritical = 1)) :
    actionPumpControl s = s := by
  unfold actionPumpControl
  rw [if_neg h]

theorem rb_newval {p : String} {s : CtrlState}
    (h : s.statePumpOverride ≠ cAtoi p) :
    readbackMQTT (.pumpMsg p) s =
      { s with statePumpOverride := cAtoi p
               lastPumpState := cNot (cAtoi p)
               ledPump := cTruthy (cAtoi p)
               trgPump := true
               triggered := true } := by
  simp only [readbackMQTT]
  rw [if_pos h]

theorem rb_sameval {p : String} {s : CtrlState}
    (h : s.statePumpOverride = cAtoi p) :
    readbackMQTT (.pumpMsg p) s = s := by
  simp only [readbackMQTT]
  rw [if_neg (not_ne_iff.mpr h)]

theorem sensorsPeriodic_gate_off {now : Nat} {ok : Nat → Bool} {s : CtrlState}
    (h : ¬(5000 ≤ ulSub now s.lastUpdate ∧ s.triggered = false)) :
    sensorsPeriodic now ok s = (s, []) := by
  unfold sensorsPeriodic
  rw [if_neg h]

theorem sensorsPeriodic_clears (now : Nat) (ok : Nat → Bool) (s : CtrlState)
    (hg : 5000 ≤ ulSub now s.lastUpdate) (ht : s.triggered = false) :
    (sensorsPeriodic now ok s).1.trgHFSWarn = false ∧
    (sensorsPeriodic now ok s).1.trgHFSCritical = false ∧
    (sensorsPeriodic now ok s).1.trgVFSPipe = false ∧
    (sensorsPeriodic now ok s).1.trgPump = false := by
  unfold sensorsPeriodic
  rw [if_pos ⟨hg, ht⟩]
  refine ⟨?_, ?_, ?_, ?_⟩
  · show (pumpBlock ok (pipeBlock ok (criticalBlock ok
        (warnBlock ok s).1).1).1).1.trgHFSWarn = false
    rw [(pumpBlock_flags ok _).2.1, (pipeBlock_flags ok _).2.1,
        (criticalBlock_flags ok _).2.1, (warnBlock_flags ok _).1]
  · show (pumpBlock ok (pipeBlock ok (criticalBlock ok
        (warnBlock ok s).1).1).1).1.trgHFSCritical = false
    rw [(pumpBlock_flags ok _).2.2.1, (pipeBlock_flags ok _).2.2,
        (criticalBlock_flags ok _).1]
  · show (pumpBlock ok (pipeBlock ok (criticalBlock ok
        (warnBlock ok s).1).1).1).1.trgVFSPipe = false
    rw [(pumpBlock_flags ok _).2.2.2, (pipeBlock_flags ok _).1]
  · show (pumpBlock ok (pipeBlock ok (criticalBlock ok
        (warnBlock ok s).1).1).1).1.trgPump = false
    rw [(pumpBlock_flags ok _).1]

theorem sensorsPeriodic_trgW {now : Nat} {ok : Nat → Bool} {s : CtrlState}
    (h : (sensorsPeriodic now ok s).1.trgHFSWarn = true) :
    s.trgHFSWarn = true := by
  by_cases hg : 5000 ≤ ulSub now s.lastUpdate ∧ s.triggered = false
  · rw [(sensorsPeriodic_clears now ok s hg.1 hg.2).1] at h
    exact absurd h (by simp)
  · rw [sensorsPeriodic_gate_off hg] at h
    exact h

theorem sensorsPeriodic_trgC {now : Nat} {ok : Nat → Bool} {s : CtrlState}
    (h : (sensorsPeriodic now ok s).1.trgHFSCritical = true) :
    s.trgHFSCritical = true := by
  by_cases hg : 5000 ≤ ulSub now s.lastUpdate ∧ s.triggered = false
  · rw [(sensorsPeriodic_clears now ok s hg.1 hg.2).2.1] at h
    exact absurd h (by simp)
  · rw [sensorsPeriodic_gate_off hg] at h
    exact h

theorem sensorsPeriodic_trgV {now : Nat} {ok : Nat → Bool} {s : CtrlState}
    (h : (sensorsPeriodic now ok s).1.trgVFSPipe = true) :
    s.trgVFSPipe = true := by
  by_cases hg : 5000 ≤ ulSub now s.lastUpdate ∧ s.triggered = false
  · rw [(sensorsPeriodic_clears now ok s hg.1 hg.2).2.2.1] at h
    exact absurd h (by simp)
  · rw [sensorsPeriodic_gate_off hg] at h
    exact h

theorem sensorsPeriodic_trgPump {now : Nat} {ok : Nat → Bool} {s : CtrlState}
    (h : (sensorsPeriodic now ok s).1.trgPump = true) :
    s.trgPump = true := by
  by_cases hg : 5000 ≤ ulSub now s.lastUpdate ∧ s.triggered = false
  · rw [(sensorsPeriodic_clears now ok s hg.1 hg.2).2.2.2] at h
    exact absurd h (by simp)
  · rw [sensorsPeriodic_gate_off hg] at h
    exact h

theorem feeds_trgW {now : Nat} {ok : Nat → Bool} {s : CtrlState}
    (h : (update_Feeds now ok s).1.trgHFSWarn = true) : s.trgHFSWarn = true := by
  have h2 : (sensorsPeriodic now ok
      (sensorsForced ok (updateFlowMeters now ok s).1).1).1.trgHFSWarn = true := h
  have h3 := sensorsPeriodic_trgW h2
  rw [(sensorsForced_misc ok _).2.1, (flowMeters_misc now ok s).2.1] at h3
  exact h3

theorem feeds_trgC {now : Nat} {ok : Nat → Bool} {s : CtrlState}
    (h : (update_Feeds now ok s).1.trgHFSCritical = true) :
    s.trgHFSCritical = true := by
  have h2 : (sensorsPeriodic now ok
      (sensorsForced ok (updateFlowMeters now ok s).1).1).1.trgHFSCritical = true := h
  have h3 := sensorsPeriodic_trgC h2
  rw [(sensorsForced_misc ok _).2.2.1, (flowMeters_misc now ok s).2.2.1] at h3
  exact h3

theorem feeds_trgV {now : Nat} {ok : Nat → Bool} {s : CtrlState}
    (h : (update_Feeds now ok s).1.trgVFSPipe = true) : s.trgVFSPipe = true := by
  have h2 : (sensorsPeriodic now ok
      (sensorsForced ok (updateFlowMeters now ok s).1).1).1.trgVFSPipe = true := h
  have h3 := sensorsPeriodic_trgV h2
  rw [(sensorsForced_misc ok _).2.2.2.1, (flowMeters_misc now ok s).2.2.2.1] at h3
  exact h3

theorem feeds_trgPump {now : Nat} {ok : Nat → Bool} {s : CtrlState}
    (h : (update_Feeds now ok s).1.trgPump = true) : s.trgPump = true := by
  have h2 : (sensorsPeriodic now ok
      (sensorsForced ok (updateFlowMeters now ok s).1).1).1.trgPump = true := h
  have h3 := sensorsPeriodic_trgPump h2
  rw [(sensorsForced_misc ok _).1, (flowMeters_misc now ok s).1] at h3
  exact h3

end Hydro

namespace Hydro

theorem pumpChanges_zero : ∀ (ts : List Nat) (s : CtrlState),
    (∀ u ∈ ts, s.lastPumpDebounce ≤ u ∧ u ≤ s.lastPumpDebounce + debounceDelay ∧ u < U32) →
    List.Pairwise (fun a b => a ≤ b) ts →
    pumpChanges s ts = 0 := by
  intro ts
  induction ts with
  | nil => intro s _ _; rfl
  | cons u rest ih =>
      intro s hmem hpw
      obtain ⟨h1, h2, h3⟩ := hmem u (List.mem_cons_self u rest)
      have hsub : ulSub u s.lastPumpDebounce = u - s.lastPumpDebounce :=
        ulSub_eq_sub h1 h3
      have hle : ulSub u s.lastPumpDebounce ≤ debounceDelay := by
        rw [hsub]; unfold debounceDelay at h2 ⊢; omega
      have heq := apo_not_elapsed hle
      have humod : u % U32 = u := Nat.mod_eq_of_lt h3
      simp only [pumpChanges]
      rw [heq, if_pos rfl, Nat.zero_add]
      apply ih
      · intro v hv
        obtain ⟨hv1, hv2, hv3⟩ := hmem v (List.mem_cons_of_mem u hv)
        have huv : u ≤ v := (List.pairwise_cons.mp hpw).1 v hv
        refine ⟨?_, ?_, hv3⟩
        · show u % U32 ≤ v
          omega
        · show v ≤ u % U32 + debounceDelay
          unfold debounceDelay at hv2 ⊢
          omega
      · exact (List.pairwise_cons.mp hpw).2

theorem pumpChanges_le_one : ∀ (ts : List Nat) (a : Nat) (s : CtrlState),
    s.lastPumpDebounce < U32 →
    List.Pairwise (fun x y => x ≤ y) (a :: ts) →
    (∀ u ∈ ts, u ≤ a + debounceDelay ∧ u < U32) →
    pumpChanges s ts ≤ 1 := by
  intro ts
  induction ts with
  | nil => intro a s _ _ _; exact Nat.zero_le 1
  | cons t rest ih =>
      intro a s hs hpw hmem
      obtain ⟨ht1, ht2⟩ := hmem t (List.mem_cons_self t rest)
      have hat : a ≤ t := (List.pairwise_cons.mp hpw).1 t (List.mem_cons_self t rest)
      have htmod : t % U32 = t := Nat.mod_eq_of_lt ht2
      simp only [pumpChanges]
      by_cases hch : (actionPumpOverride t s).statePumpOverride = s.statePumpOverride
      · rw [if_pos hch, Nat.zero_add]
        apply ih t
        · rw [apo_lastDebounce, htmod]; exact ht2
        · exact (List.pairwise_cons.mp hpw).2
        · intro v hv
          have hv2 := hmem v (List.mem_cons_of_mem t hv)
          exact ⟨by unfold debounceDelay at hv2 ⊢; omega, hv2.2⟩
      · rw [if_neg hch]
        have h0 : pumpChanges (actionPumpOverride t s) rest = 0 := by
          apply pumpChanges_zero
          · intro v hv
            have hv2 := hmem v (List.mem_cons_of_mem t hv)
            have htv : t ≤ v :=
              (List.pairwise_cons.mp (List.pairwise_cons.mp hpw).2).1 v hv
            rw [apo_lastDebounce, htmod]
            refine ⟨htv, ?_, hv2.2⟩
            unfold debounceDelay at hv2 ⊢
            omega
          · exact (List.pairwise_cons.mp (List.pairwise_cons.mp hpw).2).2
        omega

end Hydro

namespace Hydro

end Hydro

namespace Hydro

/-- C2 counterexample: with the debounce window still open
(`lastPumpDebounce = 1000`, reference instant 1050), the physical path
`ActionPumpOverride` leaves `statePumpOverride` at 1, while an inbound
pump-override message flips it to 0 and does not even consult or re-arm the
debounce timer — the remote path mutates the pump channel's stable state by
a route that bypasses the debounce logic, so it is not fed through the same
debounce/edge path as the physical switch. -/
theorem C2_cex_remote_bypasses_debounce :
    ({ initState with lastPumpDebounce := 1000 } : CtrlState).statePumpOverride = 1 ∧
    (actionPumpOverride 1050
      { initState with lastPumpDebounce := 1000 }).statePumpOverride = 1 ∧
    (readbackMQTT (.pumpMsg "0")
      { initState with lastPumpDebounce := 1000 }).statePumpOverride = 0 ∧
    (readbackMQTT (.pumpMsg "0")
      { initState with lastPumpDebounce := 1000 }).lastPumpDebounce = 1000 := by
  decide

/-- C2 (amended): the remote pump-override handler is a direct write, not a
pass through the debounce path: it never touches the debounce timer, and
whenever the decoded value differs from `statePumpOverride` it installs it
immediately (with `lastPumpState` set to the C-negation, preserving the
complement form); when the value is equal it is a no-op. -/
theorem C2_remote_direct_write (p : String) (s : CtrlState) :
    (readbackMQTT (.pumpMsg p) s).lastPumpDebounce = s.lastPumpDebounce ∧
    (cAtoi p ≠ s.statePumpOverride →
      (readbackMQTT (.pumpMsg p) s).statePumpOverride = cAtoi p ∧
      (readbackMQTT (.pumpMsg p) s).lastPumpState = cNot (cAtoi p)) ∧
    (cAtoi p = s.statePumpOverride → readbackMQTT (.pumpMsg p) s = s) := by
  by_cases hc : s.statePumpOverride = cAtoi p
  · rw [rb_sameval hc]
    exact ⟨rfl, fun hne => absurd hc.symm hne, fun _ => rfl⟩
  · rw [rb_newval hc]
    exact ⟨rfl, fun _ => ⟨rfl, rfl⟩, fun heq => absurd heq.symm hc⟩

/-- C2 witness: the amended theorem applied at payload "0" and the initial
state. -/
theorem C2_remote_direct_write_witness :
    cAtoi "0" ≠ initState.statePumpOverride ∧
    (readbackMQTT (.pumpMsg "0") initState).statePumpOverride = cAtoi "0" ∧
    (readbackMQTT (.pumpMsg "0") initState).lastPumpState = cNot (cAtoi "0") := by
  refine ⟨by decide, ?_, ?_⟩
  · exact ((C2_remote_direct_write "0" initState).2.1 (by decide)).1
  · exact ((C2_remote_direct_write "0" initState).2.1 (by decide)).2

/-- C3 counterexample: the unparseable payload "abc" is not dropped — it is
decoded by `atoi` as 0 and, with the pump on, changes `statePumpOverride`
and raises the dirty flags. -/
theorem C3_cex_malformed_changes_state :
    cAtoi "abc" = 0 ∧
    (readbackMQTT (.pumpMsg "abc") initState).statePumpOverride ≠
      initState.statePumpOverride ∧
    (readbackMQTT (.pumpMsg "abc") initState).trgPump = true ∧
    (readbackMQTT (.pumpMsg "abc") initState).triggered = true := by
  decide

/-- C3 (amended): a payload that `atoi` decodes to 0 (in particular every
payload with no leading integer) is handled exactly like the explicit
payload "0" — a pump-off command, changing state when the pump state is
nonzero; it is not dropped. -/
theorem C3_malformed_acts_as_zero (p : String) (s : CtrlState)
    (h : cAtoi p = 0) :
    readbackMQTT (.pumpMsg p) s = readbackMQTT (.pumpMsg "0") s := by
  have h0 : cAtoi "0" = 0 := by decide
  by_cases hc : s.statePumpOverride = 0
  · rw [rb_sameval (by rw [h]; exact hc), rb_sameval (by rw [h0]; exact hc)]
  · rw [rb_newval (by rw [h]; exact hc), rb_newval (by rw [h0]; exact hc), h, h0]

/-- C3 witness: the amended theorem applied at payload "abc" and the initial
state. -/
theorem C3_malformed_acts_as_zero_witness :
    cAtoi "abc" = 0 ∧
    readbackMQTT (.pumpMsg "abc") initState =
      readbackMQTT (.pumpMsg "0") initState :=
  ⟨by decide, C3_malformed_acts_as_zero "abc" initState (by decide)⟩

/-- C4: the debounce discipline of the pump channel's handler.
(i) While invocations keep arriving within `debounceDelay` of the previous
one, the stable level never changes and the window is merely re-armed;
(ii) a commit happens only when more than `debounceDelay` elapsed since the
previous invocation, and the committed value is the C-negation of the stable
level, hence differs from it; (iii) over any invocation sequence confined to
one window-length span (`a` the time of the previous invocation, all later
samples within `a + debounceDelay`), the stable level changes at most
once. -/
theorem C4_debounce_window_discipline :
    (∀ (s : CtrlState) (t : Nat),
      ulSub t s.lastPumpDebounce ≤ debounceDelay →
      actionPumpOverride t s = { s with lastPumpDebounce := t % U32 }) ∧
    (∀ (s : CtrlState) (t : Nat),
      (actionPumpOverride t s).statePumpOverride ≠ s.statePumpOverride →
      debounceDelay < ulSub t s.lastPumpDebounce ∧
      (actionPumpOverride t s).statePumpOverride = cNot s.statePumpOverride ∧
      cNot s.statePumpOverride ≠ s.statePumpOverride) ∧
    (∀ (a : Nat) (ts : List Nat) (s : CtrlState),
      s.lastPumpDebounce < U32 →
      List.Pairwise (fun x y => x ≤ y) (a :: ts) →
      (∀ u ∈ ts, u ≤ a + debounceDelay ∧ u < U32) →
      pumpChanges s ts ≤ 1) :=
  ⟨fun _ _ h => apo_not_elapsed h,
   fun _ _ h => ⟨(apo_change h).1, (apo_change h).2, cNot_ne_self _⟩,
   fun a ts s h1 h2 h3 => pumpChanges_le_one ts a s h1 h2 h3⟩

/-- C4 witness: part (i) at the initial state with an in-window invocation,
part (iii) on a burst confined to one window span. -/
theorem C4_debounce_window_discipline_witness :
    (ulSub 50 initState.lastPumpDebounce ≤ debounceDelay ∧
      actionPumpOverride 50 initState =
        { initState with lastPumpDebounce := 50 % U32 }) ∧
    (initState.lastPumpDebounce < U32 ∧
      pumpChanges initState [200, 250, 280] ≤ 1) :=
  ⟨⟨by decide, C4_debounce_window_discipline.1 initState 50 (by decide)⟩,
   ⟨by decide, C4_debounce_window_discipline.2.2 200 [200, 250, 280] initState
      (by decide) (by decide) (by decide)⟩⟩

end Hydro

namespace Hydro

theorem sysStep_pump_safe (s : CtrlState) (op : SysOp)
    (h : isPumpCommand op = false) :
    (sysStep s op).statePumpOverride = s.statePumpOverride ∨
    (sysStep s op).statePumpOverride = 0 := by
  cases op with
  | pressPump now => exact absurd h (by simp [isPumpCommand])
  | pressWarn now => exact Or.inl (ahw_misc now s).1
  | pressCritical now => exact Or.inl (ahc_misc now s).1
  | pressPipe now => exact Or.inl (avp_misc now s).1
  | interlock =>
      by_cases hz : s.stateVFSPipe = 1 ∨ s.stateHFSCritical = 1
      · rw [show sysStep s SysOp.interlock = actionPumpControl s from rfl,
            apc_hazard hz]
        exact Or.inr rfl
      · rw [show sysStep s SysOp.interlock = actionPumpControl s from rfl,
            apc_safe hz]
        exact Or.inl rfl
  | remote m =>
      cases m with
      | nothing => exact Or.inl rfl
      | unknown => exact Or.inl rfl
      | pumpMsg p => exact absurd h (by simp [isPumpCommand])
  | feeds now ok => exact Or.inl (pairs_eq_fields (pairs_update_Feeds now ok s)).1
  | edgeFlow1 => exact Or.inl rfl
  | edgeFlow2 => exact Or.inl rfl

theorem sysRun_pump_off : ∀ (ops : List SysOp) (s : CtrlState),
    s.statePumpOverride = 0 → (∀ op ∈ ops, isPumpCommand op = false) →
    (sysRun s ops).statePumpOverride = 0 := by
  intro ops
  induction ops with
  | nil => intro s h _; exact h
  | cons op rest ih =>
      intro s h hall
      have hrun : sysRun s (op :: rest) = sysRun (sysStep s op) rest := rfl
      rw [hrun]
      have hz : (sysStep s op).statePumpOverride = 0 := by
        rcases sysStep_pump_safe s op (hall op (List.mem_cons_self op rest)) with
          h2 | h2
        · rw [h2]; exact h
        · exact h2
      exact ih (sysStep s op) hz (fun o ho => hall o (List.mem_cons_of_mem op ho))

/-- C1 counterexample: the interlock check does not run every control cycle.
From startup: the pipe-overflow switch toggles active (its LED rising edge
fires `ActionPumpControl`, forcing the pump off), then a remote pump-on
command arrives while the hazard is still active — `statePumpOverride`
becomes 1 — and a full subsequent `loop()` cycle with no new events leaves it
at 1 even though `stateVFSPipe = 1`; the hazard does not force the pump off
on that cycle. -/
theorem C1_cex_not_every_cycle :
    (readbackMQTT (.pumpMsg "1")
      (actionPumpControl (actionVFSPipe 200 initState))).stateVFSPipe = 1 ∧
    (readbackMQTT (.pumpMsg "1")
      (actionPumpControl (actionVFSPipe 200 initState))).statePumpOverride = 1 ∧
    ((loopCycle .nothing 6000 (fun _ => true)
      (readbackMQTT (.pumpMsg "1")
        (actionPumpControl (actionVFSPipe 200 initState)))).1).stateVFSPipe = 1 ∧
    ((loopCycle .nothing 6000 (fun _ => true)
      (readbackMQTT (.pumpMsg "1")
        (actionPumpControl (actionVFSPipe 200 initState)))).1).statePumpOverride
      = 1 := by
  decide

/-- C1 (amended): whenever the interlock `ActionPumpControl` does run (it is
attached to the RISING edges of the critical/overflow indicator pins, not to
every control cycle) with `pipeOverflow` or `reservoirCritical` active, it
forces `statePumpOverride := 0` and `lastPumpState := 1`; the hazard-clearing
toggle handlers never touch `statePumpOverride`; and once the pump state is
0 it stays 0 across any sequence of operations that contains no explicit new
pump command (physical pump press or remote pump-override message) — the
previously commanded value is never restored automatically when the hazard
clears. -/
theorem C1_interlock_no_auto_restore :
    (∀ s : CtrlState, s.stateVFSPipe = 1 ∨ s.stateHFSCritical = 1 →
      (actionPumpControl s).statePumpOverride = 0 ∧
      (actionPumpControl s).lastPumpState = 1) ∧
    (∀ (s : CtrlState) (now : Nat),
      (actionHFSWarn now s).statePumpOverride = s.statePumpOverride ∧
      (actionHFSCritical now s).statePumpOverride = s.statePumpOverride ∧
      (actionVFSPipe now s).statePumpOverride = s.statePumpOverride) ∧
    (∀ (ops : List SysOp) (s : CtrlState),
      s.statePumpOverride = 0 → (∀ op ∈ ops, isPumpCommand op = false) →
      (sysRun s ops).statePumpOverride = 0) := by
  refine ⟨fun s h => ?_,
          fun s now => ⟨(ahw_misc now s).1, (ahc_misc now s).1, (avp_misc now s).1⟩,
          sysRun_pump_off⟩
  rw [apc_hazard h]
  exact ⟨rfl, rfl⟩

/-- C1 witness: the interlock at an active-overflow state, and a pump-off
state held at 0 through a hazard-clearing toggle and an interlock run. -/
theorem C1_interlock_no_auto_restore_witness :
    ({ initState with stateVFSPipe := 1 } : CtrlState).stateVFSPipe = 1 ∧
    (actionPumpControl
      { initState with stateVFSPipe := 1 }).statePumpOverride = 0 ∧
    ({ initState with statePumpOverride := 0 } : CtrlState).statePumpOverride
      = 0 ∧
    (sysRun { initState with statePumpOverride := 0 }
      [SysOp.pressCritical 200, SysOp.interlock,
       SysOp.pressCritical 400]).statePumpOverride = 0 :=
  ⟨rfl,
   (C1_interlock_no_auto_restore.1 { initState with stateVFSPipe := 1 }
     (Or.inl rfl)).1,
   rfl,
   C1_interlock_no_auto_restore.2.2
     [SysOp.pressCritical 200, SysOp.interlock, SysOp.pressCritical 400]
     { initState with statePumpOverride := 0 } rfl (by decide)⟩

end Hydro

namespace Hydro

theorem ctrlInv_of_pairs_eq {a b : CtrlState} (hp : pairs a = pairs b)
    (h : ctrlInv b) : ctrlInv a := by
  obtain ⟨e1, e2, e3, e4, e5, e6, e7, e8⟩ := pairs_eq_fields hp
  unfold ctrlInv at h ⊢
  rw [e1, e2, e3, e4, e5, e6, e7, e8]
  exact h

theorem apo_inv {now : Nat} {s : CtrlState} (h : ctrlInv s) :
    ctrlInv (actionPumpOverride now s) := by
  by_cases h1 : debounceDelay < ulSub now s.lastPumpDebounce
  · by_cases h2 : s.lastPumpState = s.statePumpOverride
    · rw [apo_elapsed_same h1 h2]; exact h
    · rw [apo_elapsed_toggle h1 h2]
      exact ⟨Or.inr rfl, h.2.1, h.2.2.1, h.2.2.2⟩
  · rw [apo_not_elapsed (Nat.not_lt.mp h1)]; exact h

theorem ahw_inv {now : Nat} {s : CtrlState} (h : ctrlInv s) :
    ctrlInv (actionHFSWarn now s) := by
  by_cases h1 : debounceDelay < ulSub now s.lastWarnDebounce
  · by_cases h2 : s.lastHFSWarnState = s.stateHFSWarn
    · rw [ahw_same h1 h2]; exact h
    · rw [ahw_toggle h1 h2]
      refine ⟨h.1, ⟨cNot_bool _, ?_⟩, h.2.2.1, h.2.2.2⟩
      show s.stateHFSWarn = cNot (cNot s.stateHFSWarn)
      rw [cNot_cNot_of_bool h.2.1.1]
  · rw [ahw_not_elapsed (Nat.not_lt.mp h1)]; exact h

theorem ahc_inv {now : Nat} {s : CtrlState} (h : ctrlInv s) :
    ctrlInv (actionHFSCritical now s) := by
  by_cases h1 : debounceDelay < ulSub now s.lastCriticalDebounce
  · by_cases h2 : s.lastHFSCriticalState = s.stateHFSCritical
    · rw [ahc_same h1 h2]; exact h
    · rw [ahc_toggle h1 h2]
      refine ⟨h.1, h.2.1, ⟨cNot_bool _, ?_⟩, h.2.2.2⟩
      show s.stateHFSCritical = cNot (cNot s.stateHFSCritical)
      rw [cNot_cNot_of_bool h.2.2.1.1]
  · rw [ahc_not_elapsed (Nat.not_lt.mp h1)]; exact h

theorem avp_inv {now : Nat} {s : CtrlState} (h : ctrlInv s) :
    ctrlInv (actionVFSPipe now s) := by
  by_cases h1 : debounceDelay < ulSub now s.lastPipeDebounce
  · by_cases h2 : s.lastVFSPipeState = s.stateVFSPipe
    · rw [avp_same h1 h2]; exact h
    · rw [avp_toggle h1 h2]
      refine ⟨h.1, h.2.1, h.2.2.1, ⟨cNot_bool _, ?_⟩⟩
      show s.stateVFSPipe = cNot (cNot s.stateVFSPipe)
      rw [cNot_cNot_of_bool h.2.2.2.1]
  · rw [avp_not_elapsed (Nat.not_lt.mp h1)]; exact h

theorem apc_inv {s : CtrlState} (h : ctrlInv s) :
    ctrlInv (actionPumpControl s) := by
  by_cases hz : s.stateVFSPipe = 1 ∨ s.stateHFSCritical = 1
  · rw [apc_hazard hz]
    exact ⟨Or.inl rfl, h.2.1, h.2.2.1, h.2.2.2⟩
  · rw [apc_safe hz]; exact h

theorem rb_inv {msg : Inbound} {s : CtrlState} (h : ctrlInv s) :
    ctrlInv (readbackMQTT msg s) := by
  cases msg with
  | nothing => exact h
  | unknown => exact h
  | pumpMsg p =>
      by_cases hc : s.statePumpOverride = cAtoi p
      · rw [rb_sameval hc]; exact h
      · rw [rb_newval hc]
        exact ⟨Or.inl rfl, h.2.1, h.2.2.1, h.2.2.2⟩

theorem sysStep_inv (s : CtrlState) (op : SysOp) (h : ctrlInv s) :
    ctrlInv (sysStep s op) := by
  cases op with
  | pressPump now => exact apo_inv h
  | pressWarn now => exact ahw_inv h
  | pressCritical now => exact ahc_inv h
  | pressPipe now => exact avp_inv h
  | interlock => exact apc_inv h
  | remote m => exact rb_inv h
  | feeds now ok => exact ctrlInv_of_pairs_eq (pairs_update_Feeds now ok s) h
  | edgeFlow1 => exact h
  | edgeFlow2 => exact h

end Hydro

namespace Hydro

/-- C10 counterexample: the complement invariant `lastState == !state` is not
preserved by every operation that touches the pump pair.  A remote payload
"2" (decoded by `atoi` to 2) leaves the pair in the complement form
(`lastPumpState = !2 = 0`), but the next physical toggle records
`lastPumpState := 2` while setting `statePumpOverride := !2 = 0`, and
`2 ≠ !0 = 1` — the handler fails to re-establish the relation. -/
theorem C10_cex_complement_broken :
    (readbackMQTT (.pumpMsg "2") initState).lastPumpState =
      cNot (readbackMQTT (.pumpMsg "2") initState).statePumpOverride ∧
    (actionPumpOverride 200
        (readbackMQTT (.pumpMsg "2") initState)).lastPumpState = 2 ∧
    cNot (actionPumpOverride 200
        (readbackMQTT (.pumpMsg "2") initState)).statePumpOverride = 1 ∧
    (actionPumpOverride 200
        (readbackMQTT (.pumpMsg "2") initState)).lastPumpState ≠
      cNot (actionPumpOverride 200
        (readbackMQTT (.pumpMsg "2") initState)).statePumpOverride := by
  decide

/-- C10 (amended): the invariant that holds after initialization and is
preserved by every operation (toggle handlers, interlock, remote handler,
feeds pass, flow interrupts) is the direction-agnostic complement form: for
the pump pair, `lastPumpState = !statePumpOverride` or
`statePumpOverride = !lastPumpState` (the strict `last == !state` form can
be broken for one step by a remote payload outside {0,1} followed by a
toggle); for the three float-switch pairs, whose states stay in {0,1}, the
strict form `last = !state` holds.  Either form forces `last ≠ state`,
which is what makes the next toggle commit the opposite level. -/
theorem C10_complement_invariant :
    ctrlInv initState ∧
    (∀ l st : Int, pairInv l st → l ≠ st) ∧
    (∀ (s : CtrlState) (op : SysOp), ctrlInv s → ctrlInv (sysStep s op)) := by
  refine ⟨?_, ?_, sysStep_inv⟩
  · unfold ctrlInv pairInv boolPair
    refine ⟨Or.inl rfl, ⟨Or.inl rfl, rfl⟩, ⟨Or.inl rfl, rfl⟩, ⟨Or.inl rfl, rfl⟩⟩
  · intro l st hp heq
    rcases hp with hp | hp
    · rw [heq] at hp
      exact cNot_ne_self st hp.symm
    · rw [← heq] at hp
      exact cNot_ne_self l hp.symm

/-- C10 witness: the preserved invariant pushed through an interlock run
from the initial state, and the `last ≠ state` consequence at the initial
pump pair. -/
theorem C10_complement_invariant_witness :
    ctrlInv (sysStep initState SysOp.interlock) ∧
    initState.lastPumpState ≠ initState.statePumpOverride :=
  ⟨C10_complement_invariant.2.2 initState SysOp.interlock
     C10_complement_invariant.1,
   C10_complement_invariant.2.1 initState.lastPumpState
     initState.statePumpOverride (Or.inl rfl)⟩

end Hydro

namespace Hydro

theorem apo_set_only {now : Nat} {s : CtrlState} (h0 : s.trgPump = false)
    (h : (actionPumpOverride now s).trgPump = true) :
    (actionPumpOverride now s).statePumpOverride ≠ s.statePumpOverride := by
  by_cases h1 : debounceDelay < ulSub now s.lastPumpDebounce
  · by_cases h2 : s.lastPumpState = s.statePumpOverride
    · rw [apo_elapsed_same h1 h2] at h
      have hh : s.trgPump = true := h
      rw [h0] at hh
      exact Bool.noConfusion hh
    · rw [apo_elapsed_toggle h1 h2]
      exact cNot_ne_self _
  · rw [apo_not_elapsed (Nat.not_lt.mp h1)] at h
    have hh : s.trgPump = true := h
    rw [h0] at hh
    exact Bool.noConfusion hh

theorem ahw_set_only {now : Nat} {s : CtrlState} (h0 : s.trgHFSWarn = false)
    (h : (actionHFSWarn now s).trgHFSWarn = true) :
    (actionHFSWarn now s).stateHFSWarn ≠ s.stateHFSWarn := by
  by_cases h1 : debounceDelay < ulSub now s.lastWarnDebounce
  · by_cases h2 : s.lastHFSWarnState = s.stateHFSWarn
    · rw [ahw_same h1 h2] at h
      have hh : s.trgHFSWarn = true := h
      rw [h0] at hh
      exact Bool.noConfusion hh
    · rw [ahw_toggle h1 h2]
      exact cNot_ne_self _
  · rw [ahw_not_elapsed (Nat.not_lt.mp h1)] at h
    have hh : s.trgHFSWarn = true := h
    rw [h0] at hh
    exact Bool.noConfusion hh

theorem ahc_set_only {now : Nat} {s : CtrlState}
    (h0 : s.trgHFSCritical = false)
    (h : (actionHFSCritical now s).trgHFSCritical = true) :
    (actionHFSCritical now s).stateHFSCritical ≠ s.stateHFSCritical := by
  by_cases h1 : debounceDelay < ulSub now s.lastCriticalDebounce
  · by_cases h2 : s.lastHFSCriticalState = s.stateHFSCritical
    · rw [ahc_same h1 h2] at h
      have hh : s.trgHFSCritical = true := h
      rw [h0] at hh
      exact Bool.noConfusion hh
    · rw [ahc_toggle h1 h2]
      exact cNot_ne_self _
  · rw [ahc_not_elapsed (Nat.not_lt.mp h1)] at h
    have hh : s.trgHFSCritical = true := h
    rw [h0] at hh
    exact Bool.noConfusion hh

theorem avp_set_only {now : Nat} {s : CtrlState} (h0 : s.trgVFSPipe = false)
    (h : (actionVFSPipe now s).trgVFSPipe = true) :
    (actionVFSPipe now s).stateVFSPipe ≠ s.stateVFSPipe := by
  by_cases h1 : debounceDelay < ulSub now s.lastPipeDebounce
  · by_cases h2 : s.lastVFSPipeState = s.stateVFSPipe
    · rw [avp_same h1 h2] at h
      have hh : s.trgVFSPipe = true := h
      rw [h0] at hh
      exact Bool.noConfusion hh
    · rw [avp_toggle h1 h2]
      exact cNot_ne_self _
  · rw [avp_not_elapsed (Nat.not_lt.mp h1)] at h
    have hh : s.trgVFSPipe = true := h
    rw [h0] at hh
    exact Bool.noConfusion hh

theorem rb_set_only {msg : Inbound} {s : CtrlState} (h0 : s.trgPump = false)
    (h : (readbackMQTT msg s).trgPump = true) :
    (readbackMQTT msg s).statePumpOverride ≠ s.statePumpOverride := by
  cases msg with
  | nothing =>
      have hh : s.trgPump = true := h
      rw [h0] at hh
      exact Bool.noConfusion hh
  | unknown =>
      have hh : s.trgPump = true := h
      rw [h0] at hh
      exact Bool.noConfusion hh
  | pumpMsg p =>
      by_cases hc : s.statePumpOverride = cAtoi p
      · rw [rb_sameval hc] at h
        have hh : s.trgPump = true := h
        rw [h0] at hh
        exact Bool.noConfusion hh
      · rw [rb_newval hc]
        exact fun he => hc he.symm

theorem sf_pubs_on {ok : Nat → Bool} {s : CtrlState}
    (h : s.firstUpdate = true ∨ s.triggered = true) :
    (sensorsForced ok s).2 =
      [⟨Topic.pumpOverride, cBit s.statePumpOverride, ok (s.countUpdate + 1)⟩,
       ⟨Topic.reservoirWarn, cBit s.stateHFSWarn, ok (s.countUpdate + 2)⟩,
       ⟨Topic.reservoirCritical, cBit s.stateHFSCritical, ok (s.countUpdate + 3)⟩,
       ⟨Topic.pipeOverflow, cBit s.stateVFSPipe, ok (s.countUpdate + 4)⟩] := by
  unfold sensorsForced
  rw [if_pos h]

end Hydro

namespace Hydro

theorem sysStep_flags_only_on_change (s : CtrlState) (op : SysOp) :
    (s.trgHFSWarn = false → (sysStep s op).trgHFSWarn = true →
      (sysStep s op).stateHFSWarn ≠ s.stateHFSWarn) ∧
    (s.trgHFSCritical = false → (sysStep s op).trgHFSCritical = true →
      (sysStep s op).stateHFSCritical ≠ s.stateHFSCritical) ∧
    (s.trgVFSPipe = false → (sysStep s op).trgVFSPipe = true →
      (sysStep s op).stateVFSPipe ≠ s.stateVFSPipe) ∧
    (s.trgPump = false → (sysStep s op).trgPump = true →
      (sysStep s op).statePumpOverride ≠ s.statePumpOverride) := by
  cases op with
  | pressPump now =>
      simp only [sysStep]
      refine ⟨fun h0 h => ?_, fun h0 h => ?_, fun h0 h => ?_,
              fun h0 h => apo_set_only h0 h⟩
      · rw [(apo_misc now s).2.2.2.2.2.2.1, h0] at h
        exact Bool.noConfusion h
      · rw [(apo_misc now s).2.2.2.2.2.2.2.1, h0] at h
        exact Bool.noConfusion h
      · rw [(apo_misc now s).2.2.2.2.2.2.2.2, h0] at h
        exact Bool.noConfusion h
  | pressWarn now =>
      simp only [sysStep]
      refine ⟨fun h0 h => ahw_set_only h0 h, fun h0 h => ?_, fun h0 h => ?_,
              fun h0 h => ?_⟩
      · rw [(ahw_misc now s).2.2.2.2.2.2.2.1, h0] at h
        exact Bool.noConfusion h
      · rw [(ahw_misc now s).2.2.2.2.2.2.2.2, h0] at h
        exact Bool.noConfusion h
      · rw [(ahw_misc now s).2.2.2.2.2.2.1, h0] at h
        exact Bool.noConfusion h
  | pressCritical now =>
      simp only [sysStep]
      refine ⟨fun h0 h => ?_, fun h0 h => ahc_set_only h0 h, fun h0 h => ?_,
              fun h0 h => ?_⟩
      · rw [(ahc_misc now s).2.2.2.2.2.2.2.1, h0] at h
        exact Bool.noConfusion h
      · rw [(ahc_misc now s).2.2.2.2.2.2.2.2, h0] at h
        exact Bool.noConfusion h
      · rw [(ahc_misc now s).2.2.2.2.2.2.1, h0] at h
        exact Bool.noConfusion h
  | pressPipe now =>
      simp only [sysStep]
      refine ⟨fun h0 h => ?_, fun h0 h => ?_, fun h0 h => avp_set_only h0 h,
              fun h0 h => ?_⟩
      · rw [(avp_misc now s).2.2.2.2.2.2.2.1, h0] at h
        exact Bool.noConfusion h
      · rw [(avp_misc now s).2.2.2.2.2.2.2.2, h0] at h
        exact Bool.noConfusion h
      · rw [(avp_misc now s).2.2.2.2.2.2.1, h0] at h
        exact Bool.noConfusion h
  | interlock =>
      simp only [sysStep]
      refine ⟨fun h0 h => ?_, fun h0 h => ?_, fun h0 h => ?_, fun h0 h => ?_⟩
      · rw [(apc_misc s).2.2.2.2.2.2.2.1, h0] at h
        exact Bool.noConfusion h
      · rw [(apc_misc s).2.2.2.2.2.2.2.2.1, h0] at h
        exact Bool.noConfusion h
      · rw [(apc_misc s).2.2.2.2.2.2.2.2.2, h0] at h
        exact Bool.noConfusion h
      · rw [(apc_misc s).2.2.2.2.2.2.1, h0] at h
        exact Bool.noConfusion h
  | remote m =>
      simp only [sysStep]
      refine ⟨fun h0 h => ?_, fun h0 h => ?_, fun h0 h => ?_,
              fun h0 h => rb_set_only h0 h⟩
      · rw [(rb_misc m s).2.2.2.2.2.2.1, h0] at h
        exact Bool.noConfusion h
      · rw [(rb_misc m s).2.2.2.2.2.2.2.1, h0] at h
        exact Bool.noConfusion h
      · rw [(rb_misc m s).2.2.2.2.2.2.2.2, h0] at h
        exact Bool.noConfusion h
  | feeds now ok =>
      simp only [sysStep]
      refine ⟨fun h0 h => ?_, fun h0 h => ?_, fun h0 h => ?_, fun h0 h => ?_⟩
      · rw [feeds_trgW h] at h0
        exact Bool.noConfusion h0
      · rw [feeds_trgC h] at h0
        exact Bool.noConfusion h0
      · rw [feeds_trgV h] at h0
        exact Bool.noConfusion h0
      · rw [feeds_trgPump h] at h0
        exact Bool.noConfusion h0
  | edgeFlow1 =>
      simp only [sysStep]
      refine ⟨fun h0 h => ?_, fun h0 h => ?_, fun h0 h => ?_, fun h0 h => ?_⟩
      all_goals
        first
        | (have hh : s.trgHFSWarn = true := h
           rw [h0] at hh
           exact Bool.noConfusion hh)
        | (have hh : s.trgHFSCritical = true := h
           rw [h0] at hh
           exact Bool.noConfusion hh)
        | (have hh : s.trgVFSPipe = true := h
           rw [h0] at hh
           exact Bool.noConfusion hh)
        | (have hh : s.trgPump = true := h
           rw [h0] at hh
           exact Bool.noConfusion hh)
  | edgeFlow2 =>
      simp only [sysStep]
      refine ⟨fun h0 h => ?_, fun h0 h => ?_, fun h0 h => ?_, fun h0 h => ?_⟩
      all_goals
        first
        | (have hh : s.trgHFSWarn = true := h
           rw [h0] at hh
           exact Bool.noConfusion hh)
        | (have hh : s.trgHFSCritical = true := h
           rw [h0] at hh
           exact Bool.noConfusion hh)
        | (have hh : s.trgVFSPipe = true := h
           rw [h0] at hh
           exact Bool.noConfusion hh)
        | (have hh : s.trgPump = true := h
           rw [h0] at hh
           exact Bool.noConfusion hh)

end Hydro

namespace Hydro

/-- C9 counterexample: the scheduler does publish the same stable value twice
for a quantity that did not change.  First cycle: `pump-override` is
published with value 1.  A reservoir-warning toggle then raises `triggered`,
and the next `Update_Feeds` pass runs the forced block, which publishes all
four stable states — `pump-override` with value 1 again — although
`statePumpOverride` stayed 1 throughout and no pump edge occurred. -/
theorem C9_cex_same_value_republished :
    valuesOn Topic.pumpOverride
      (update_Feeds 100 (fun _ => true) initState).2 = [1] ∧
    valuesOn Topic.pumpOverride
      (update_Feeds 400 (fun _ => true)
        (actionHFSWarn 300 (update_Feeds 100 (fun _ => true) initState).1)).2
      = [1] ∧
    (update_Feeds 100 (fun _ => true) initState).1.statePumpOverride = 1 ∧
    (actionHFSWarn 300
      (update_Feeds 100 (fun _ => true) initState).1).statePumpOverride = 1 ∧
    (update_Feeds 400 (fun _ => true)
      (actionHFSWarn 300
        (update_Feeds 100 (fun _ => true) initState).1)).1.statePumpOverride
      = 1 := by
  decide

/-- C9 (amended): each quantity's dirty flag is indeed set (false to true)
only by an operation that actually changes that quantity's stable value —
for every entry point, a freshly raised `trgHFSWarn`/`trgHFSCritical`/
`trgVFSPipe`/`trgPump` implies the corresponding stable state changed in
that step.  The claim's conclusion nevertheless fails (counterexample):
whenever any one channel triggers, the forced block of `UpdateSensors`
publishes all four stable states unconditionally, so quantities whose value
did not change are re-published with their old value (second clause: the
forced block's publish list on a triggered cycle always carries all four
quantities). -/
theorem C9_dirty_flag_discipline :
    (∀ (s : CtrlState) (op : SysOp),
      (s.trgHFSWarn = false → (sysStep s op).trgHFSWarn = true →
        (sysStep s op).stateHFSWarn ≠ s.stateHFSWarn) ∧
      (s.trgHFSCritical = false → (sysStep s op).trgHFSCritical = true →
        (sysStep s op).stateHFSCritical ≠ s.stateHFSCritical) ∧
      (s.trgVFSPipe = false → (sysStep s op).trgVFSPipe = true →
        (sysStep s op).stateVFSPipe ≠ s.stateVFSPipe) ∧
      (s.trgPump = false → (sysStep s op).trgPump = true →
        (sysStep s op).statePumpOverride ≠ s.statePumpOverride)) ∧
    (∀ (ok : Nat → Bool) (s : CtrlState), s.triggered = true →
      attempts (sensorsForced ok s).2 =
        [(Topic.pumpOverride, cBit s.statePumpOverride),
         (Topic.reservoirWarn, cBit s.stateHFSWarn),
         (Topic.reservoirCritical, cBit s.stateHFSCritical),
         (Topic.pipeOverflow, cBit s.stateVFSPipe)]) := by
  refine ⟨sysStep_flags_only_on_change, fun ok s ht => ?_⟩
  rw [sf_pubs_on (Or.inr ht)]
  rfl

/-- C9 witness: a warning edge raising its own flag with an actual change,
and the forced block's four-quantity publish list on a triggered state. -/
theorem C9_dirty_flag_discipline_witness :
    (sysStep initState (SysOp.pressWarn 200)).stateHFSWarn ≠
      initState.stateHFSWarn ∧
    attempts (sensorsForced (fun _ => true)
        { initState with triggered := true }).2 =
      [(Topic.pumpOverride, 1), (Topic.reservoirWarn, 0),
       (Topic.reservoirCritical, 0), (Topic.pipeOverflow, 0)] := by
  constructor
  · exact (C9_dirty_flag_discipline.1 initState (SysOp.pressWarn 200)).1
      rfl (by decide)
  · rw [C9_dirty_flag_discipline.2 (fun _ => true)
      { initState with triggered := true } rfl]
    decide

end Hydro

namespace Hydro

theorem ufm_pubs_first {now : Nat} {ok : Nat → Bool} {s : CtrlState}
    (h : s.firstUpdate = true) :
    (updateFlowMeters now ok s).2 =
      [⟨Topic.pumpInFlow, (litresOf s.count1 : Int), ok (s.countUpdate + 1)⟩,
       ⟨Topic.pumpReturnFlow, (litresOf s.count2 : Int),
         ok (s.countUpdate + 2)⟩] := by
  unfold updateFlowMeters
  rw [if_pos (Or.inr h)]

theorem warnBlock_quiet {ok : Nat → Bool} {s : CtrlState}
    (h : s.trgHFSWarn = false) : warnBlock ok s = (s, []) := by
  unfold warnBlock
  rw [if_neg (by simp [h])]

theorem criticalBlock_quiet {ok : Nat → Bool} {s : CtrlState}
    (h : s.trgHFSCritical = false) : criticalBlock ok s = (s, []) := by
  unfold criticalBlock
  rw [if_neg (by simp [h])]

theorem pipeBlock_quiet {ok : Nat → Bool} {s : CtrlState}
    (h : s.trgVFSPipe = false) : pipeBlock ok s = (s, []) := by
  unfold pipeBlock
  rw [if_neg (by simp [h])]

theorem pumpBlock_quiet {ok : Nat → Bool} {s : CtrlState}
    (h : s.trgPump = false) : pumpBlock ok s = (s, []) := by
  unfold pumpBlock
  rw [if_neg (by simp [h])]

theorem sensorsPeriodic_pubs_quiet {now : Nat} {ok : Nat → Bool}
    {s : CtrlState} (hW : s.trgHFSWarn = false) (hC : s.trgHFSCritical = false)
    (hV : s.trgVFSPipe = false) (hP : s.trgPump = false) :
    (sensorsPeriodic now ok s).2 = [] := by
  by_cases hg : 5000 ≤ ulSub now s.lastUpdate ∧ s.triggered = false
  · unfold sensorsPeriodic
    rw [if_pos hg]
    simp [warnBlock_quiet hW, criticalBlock_quiet hC, pipeBlock_quiet hV,
          pumpBlock_quiet hP]
  · rw [sensorsPeriodic_gate_off hg]

end Hydro

namespace Hydro

/-- C6 counterexample: the six quantities are not always published exactly
once on the very first cycle.  If a remote pump command arrives in the first
cycle (before `Update_Feeds`) and more than 5 s of uptime has elapsed,
`pump-override` is published twice: once by the forced first-cycle block and
once more by the 5-second cadence consuming the still-set `trgPump` flag. -/
theorem C6_cex_first_cycle_double_publish :
    initState.firstUpdate = true ∧
    countTopic Topic.pumpOverride
      (loopCycle (.pumpMsg "0") 6000 (fun _ => true) initState).2 = 2 := by
  decide

/-- C6 (amended): on the first cycle, provided no per-quantity dirty flag is
pending when `Update_Feeds` runs, each of the six quantities is published
exactly once, for every reference time (i.e. regardless of the 30 s and 5 s
timers); with a pending dirty flag and ≥ 5 s of uptime, that quantity is
published twice (counterexample). -/
theorem C6_first_cycle_publish_once (s : CtrlState) (now : Nat)
    (ok : Nat → Bool) (hf : s.firstUpdate = true)
    (hW : s.trgHFSWarn = false) (hC : s.trgHFSCritical = false)
    (hV : s.trgVFSPipe = false) (hP : s.trgPump = false) :
    ∀ t : Topic, countTopic t (update_Feeds now ok s).2 = 1 := by
  intro t
  have hsplit : (update_Feeds now ok s).2 =
      (updateFlowMeters now ok s).2 ++
      ((sensorsForced ok (updateFlowMeters now ok s).1).2 ++
       (sensorsPeriodic now ok
         (sensorsForced ok (updateFlowMeters now ok s).1).1).2) := rfl
  have hfu : (updateFlowMeters now ok s).1.firstUpdate = true := by
    rw [(flowMeters_misc now ok s).2.2.2.2.2]
    exact hf
  have e1 := @ufm_pubs_first now ok s hf
  have e2 := @sf_pubs_on ok (updateFlowMeters now ok s).1 (Or.inl hfu)
  have fW : (sensorsForced ok (updateFlowMeters now ok s).1).1.trgHFSWarn
      = false := by
    rw [(sensorsForced_misc ok _).2.1, (flowMeters_misc now ok s).2.1]
    exact hW
  have fC : (sensorsForced ok (updateFlowMeters now ok s).1).1.trgHFSCritical
      = false := by
    rw [(sensorsForced_misc ok _).2.2.1, (flowMeters_misc now ok s).2.2.1]
    exact hC
  have fV : (sensorsForced ok (updateFlowMeters now ok s).1).1.trgVFSPipe
      = false := by
    rw [(sensorsForced_misc ok _).2.2.2.1, (flowMeters_misc now ok s).2.2.2.1]
    exact hV
  have fP : (sensorsForced ok (updateFlowMeters now ok s).1).1.trgPump
      = false := by
    rw [(sensorsForced_misc ok _).1, (flowMeters_misc now ok s).1]
    exact hP
  have e3 := @sensorsPeriodic_pubs_quiet now ok
    (sensorsForced ok (updateFlowMeters now ok s).1).1 fW fC fV fP
  rw [hsplit, e1, e2, e3]
  cases t <;>
    simp [countTopic, List.countP_append, List.countP_cons, List.countP_nil]

/-- C6 witness: the amended theorem at the quiescent initial state, at a
reference time past both timer thresholds. -/
theorem C6_first_cycle_publish_once_witness :
    initState.firstUpdate = true ∧
    countTopic Topic.pumpOverride
      (update_Feeds 40000 (fun _ => true) initState).2 = 1 ∧
    countTopic Topic.pumpInFlow
      (update_Feeds 40000 (fun _ => true) initState).2 = 1 :=
  ⟨rfl,
   C6_first_cycle_publish_once initState 40000 (fun _ => true)
     rfl rfl rfl rfl rfl Topic.pumpOverride,
   C6_first_cycle_publish_once initState 40000 (fun _ => true)
     rfl rfl rfl rfl rfl Topic.pumpInFlow⟩

end Hydro

namespace Hydro

theorem attempts_append (a b : List PubEvent) :
    attempts (a ++ b) = attempts a ++ attempts b :=
  List.map_append _ a b

theorem wb_ok (ok ok2 : Nat → Bool) (s : CtrlState) :
    (warnBlock ok s).1 = (warnBlock ok2 s).1 ∧
    attempts (warnBlock ok s).2 = attempts (warnBlock ok2 s).2 := by
  unfold warnBlock
  split <;> exact ⟨rfl, rfl⟩

theorem cb_ok (ok ok2 : Nat → Bool) (s : CtrlState) :
    (criticalBlock ok s).1 = (criticalBlock ok2 s).1 ∧
    attempts (criticalBlock ok s).2 = attempts (criticalBlock ok2 s).2 := by
  unfold criticalBlock
  split <;> exact ⟨rfl, rfl⟩

theorem pb_ok (ok ok2 : Nat → Bool) (s : CtrlState) :
    (pipeBlock ok s).1 = (pipeBlock ok2 s).1 ∧
    attempts (pipeBlock ok s).2 = attempts (pipeBlock ok2 s).2 := by
  unfold pipeBlock
  split <;> exact ⟨rfl, rfl⟩

theorem pu_ok (ok ok2 : Nat → Bool) (s : CtrlState) :
    (pumpBlock ok s).1 = (pumpBlock ok2 s).1 ∧
    attempts (pumpBlock ok s).2 = attempts (pumpBlock ok2 s).2 := by
  unfold pumpBlock
  split <;> exact ⟨rfl, rfl⟩

theorem sf_ok (ok ok2 : Nat → Bool) (s : CtrlState) :
    (sensorsForced ok s).1 = (sensorsForced ok2 s).1 ∧
    attempts (sensorsForced ok s).2 = attempts (sensorsForced ok2 s).2 := by
  unfold sensorsForced
  split <;> exact ⟨rfl, rfl⟩

theorem ufm_ok (now : Nat) (ok ok2 : Nat → Bool) (s : CtrlState) :
    (updateFlowMeters now ok s).1 = (updateFlowMeters now ok2 s).1 ∧
    attempts (updateFlowMeters now ok s).2 =
      attempts (updateFlowMeters now ok2 s).2 := by
  unfold updateFlowMeters
  split <;> exact ⟨rfl, rfl⟩

theorem sp_ok (now : Nat) (ok ok2 : Nat → Bool) (s : CtrlState) :
    (sensorsPeriodic now ok s).1 = (sensorsPeriodic now ok2 s).1 ∧
    attempts (sensorsPeriodic now ok s).2 =
      attempts (sensorsPeriodic now ok2 s).2 := by
  have e1 : (warnBlock ok s).1 = (warnBlock ok2 s).1 := (wb_ok ok ok2 s).1
  have e2 : (criticalBlock ok (warnBlock ok s).1).1 =
      (criticalBlock ok2 (warnBlock ok2 s).1).1 := by
    rw [e1]
    exact (cb_ok ok ok2 _).1
  have e3 : (pipeBlock ok (criticalBlock ok (warnBlock ok s).1).1).1 =
      (pipeBlock ok2 (criticalBlock ok2 (warnBlock ok2 s).1).1).1 := by
    rw [e2]
    exact (pb_ok ok ok2 _).1
  have e4 : (pumpBlock ok
        (pipeBlock ok (criticalBlock ok (warnBlock ok s).1).1).1).1 =
      (pumpBlock ok2
        (pipeBlock ok2 (criticalBlock ok2 (warnBlock ok2 s).1).1).1).1 := by
    rw [e3]
    exact (pu_ok ok ok2 _).1
  unfold sensorsPeriodic
  split
  · constructor
    · show ({ (pumpBlock ok
          (pipeBlock ok (criticalBlock ok (warnBlock ok s).1).1).1).1 with
            lastUpdate := now % U32 } : CtrlState) =
        { (pumpBlock ok2
          (pipeBlock ok2 (criticalBlock ok2 (warnBlock ok2 s).1).1).1).1 with
            lastUpdate := now % U32 }
      rw [e4]
    · show attempts ((warnBlock ok s).2 ++
          (criticalBlock ok (warnBlock ok s).1).2 ++
          (pipeBlock ok (criticalBlock ok (warnBlock ok s).1).1).2 ++
          (pumpBlock ok
            (pipeBlock ok (criticalBlock ok (warnBlock ok s).1).1).1).2) =
        attempts ((warnBlock ok2 s).2 ++
          (criticalBlock ok2 (warnBlock ok2 s).1).2 ++
          (pipeBlock ok2 (criticalBlock ok2 (warnBlock ok2 s).1).1).2 ++
          (pumpBlock ok2
            (pipeBlock ok2 (criticalBlock ok2 (warnBlock ok2 s).1).1).1).2)
      have a1 := (wb_ok ok ok2 s).2
      have a2 : attempts (criticalBlock ok (warnBlock ok s).1).2 =
          attempts (criticalBlock ok2 (warnBlock ok2 s).1).2 := by
        rw [e1]
        exact (cb_ok ok ok2 _).2
      have a3 : attempts (pipeBlock ok
            (criticalBlock ok (warnBlock ok s).1).1).2 =
          attempts (pipeBlock ok2
            (criticalBlock ok2 (warnBlock ok2 s).1).1).2 := by
        rw [e2]
        exact (pb_ok ok ok2 _).2
      have a4 : attempts (pumpBlock ok
            (pipeBlock ok (criticalBlock ok (warnBlock ok s).1).1).1).2 =
          attempts (pumpBlock ok2
            (pipeBlock ok2 (criticalBlock ok2 (warnBlock ok2 s).1).1).1).2 := by
        rw [e3]
        exact (pu_ok ok ok2 _).2
      simp only [attempts_append]
      rw [a1, a2, a3, a4]
  · exact ⟨rfl, rfl⟩

theorem us_ok (now : Nat) (ok ok2 : Nat → Bool) (s : CtrlState) :
    (updateSensors now ok s).1 = (updateSensors now ok2 s).1 ∧
    attempts (updateSensors now ok s).2 =
      attempts (updateSensors now ok2 s).2 := by
  have f1 : (sensorsForced ok s).1 = (sensorsForced ok2 s).1 := (sf_ok ok ok2 s).1
  constructor
  · show (sensorsPeriodic now ok (sensorsForced ok s).1).1 =
      (sensorsPeriodic now ok2 (sensorsForced ok2 s).1).1
    rw [f1]
    exact (sp_ok now ok ok2 _).1
  · show attempts ((sensorsForced ok s).2 ++
        (sensorsPeriodic now ok (sensorsForced ok s).1).2) =
      attempts ((sensorsForced ok2 s).2 ++
        (sensorsPeriodic now ok2 (sensorsForced ok2 s).1).2)
    simp only [attempts_append]
    rw [(sf_ok ok ok2 s).2]
    have : attempts (sensorsPeriodic now ok (sensorsForced ok s).1).2 =
        attempts (sensorsPeriodic now ok2 (sensorsForced ok2 s).1).2 := by
      rw [f1]
      exact (sp_ok now ok ok2 _).2
    rw [this]

end Hydro

namespace Hydro

theorem wb_pubs_cases (ok : Nat → Bool) (s : CtrlState) :
    (warnBlock ok s).2 = [] ∨
    ∃ v b, (warnBlock ok s).2 = [⟨Topic.reservoirWarn, v, b⟩] := by
  unfold warnBlock
  split
  · right; exact ⟨_, _, rfl⟩
  · left; rfl

theorem cb_pubs_cases (ok : Nat → Bool) (s : CtrlState) :
    (criticalBlock ok s).2 = [] ∨
    ∃ v b, (criticalBlock ok s).2 = [⟨Topic.reservoirCritical, v, b⟩] := by
  unfold criticalBlock
  split
  · right; exact ⟨_, _, rfl⟩
  · left; rfl

theorem pb_pubs_cases (ok : Nat → Bool) (s : CtrlState) :
    (pipeBlock ok s).2 = [] ∨
    ∃ v b, (pipeBlock ok s).2 = [⟨Topic.pipeOverflow, v, b⟩] := by
  unfold pipeBlock
  split
  · right; exact ⟨_, _, rfl⟩
  · left; rfl

theorem pu_pubs_cases (ok : Nat → Bool) (s : CtrlState) :
    (pumpBlock ok s).2 = [] ∨
    ∃ v b, (pumpBlock ok s).2 = [⟨Topic.pumpOverride, v, b⟩] := by
  unfold pumpBlock
  split
  · right; exact ⟨_, _, rfl⟩
  · left; rfl

theorem sf_count_le (t : Topic) (ok : Nat → Bool) (s : CtrlState) :
    countTopic t (sensorsForced ok s).2 ≤ 1 := by
  unfold sensorsForced
  split
  · cases t <;>
      simp [countTopic, List.countP_cons, List.countP_nil]
  · simp [countTopic]

theorem sp_count_le (t : Topic) (now : Nat) (ok : Nat → Bool) (s : CtrlState) :
    countTopic t (sensorsPeriodic now ok s).2 ≤ 1 := by
  by_cases hg : 5000 ≤ ulSub now s.lastUpdate ∧ s.triggered = false
  · unfold sensorsPeriodic
    rw [if_pos hg]
    show countTopic t ((warnBlock ok s).2 ++
        (criticalBlock ok (warnBlock ok s).1).2 ++
        (pipeBlock ok (criticalBlock ok (warnBlock ok s).1).1).2 ++
        (pumpBlock ok
          (pipeBlock ok (criticalBlock ok (warnBlock ok s).1).1).1).2) ≤ 1
    rcases wb_pubs_cases ok s with h1 | ⟨v1, b1, h1⟩ <;>
      rcases cb_pubs_cases ok (warnBlock ok s).1 with h2 | ⟨v2, b2, h2⟩ <;>
      rcases pb_pubs_cases ok (criticalBlock ok (warnBlock ok s).1).1 with
        h3 | ⟨v3, b3, h3⟩ <;>
      rcases pu_pubs_cases ok
        (pipeBlock ok (criticalBlock ok (warnBlock ok s).1).1).1 with
        h4 | ⟨v4, b4, h4⟩ <;>
      rw [h1, h2, h3, h4] <;>
      cases t <;>
      simp [countTopic, List.countP_append, List.countP_cons, List.countP_nil]
  · rw [sensorsPeriodic_gate_off hg]
    simp [countTopic]

end Hydro

namespace Hydro

/-- C8: publish-failure policy.  (i) The resulting controller state and the
attempted (topic, value) publish schedule of both `UpdateSensors` and
`UpdateFlowMeters` are identical under any two success oracles — a failed
publish changes nothing but the logged success bit, so failures are never
retried within the cycle; (ii) the forced (first-cycle / triggered) block
leaves every per-quantity dirty flag exactly as it was — after its publish
attempt a set flag stays set, succeed or fail; (iii) when the 5 s periodic
gate passes, all per-quantity dirty flags are false afterwards — cleared
even when every publish failed, never re-armed by a failure; (iv) each
block attempts each topic at most once per pass. -/
theorem C8_publish_failure_policy :
    (∀ (now : Nat) (ok ok2 : Nat → Bool) (s : CtrlState),
      (updateSensors now ok s).1 = (updateSensors now ok2 s).1 ∧
      attempts (updateSensors now ok s).2 =
        attempts (updateSensors now ok2 s).2 ∧
      (updateFlowMeters now ok s).1 = (updateFlowMeters now ok2 s).1 ∧
      attempts (updateFlowMeters now ok s).2 =
        attempts (updateFlowMeters now ok2 s).2) ∧
    (∀ (ok : Nat → Bool) (s : CtrlState),
      (sensorsForced ok s).1.trgPump = s.trgPump ∧
      (sensorsForced ok s).1.trgHFSWarn = s.trgHFSWarn ∧
      (sensorsForced ok s).1.trgHFSCritical = s.trgHFSCritical ∧
      (sensorsForced ok s).1.trgVFSPipe = s.trgVFSPipe) ∧
    (∀ (now : Nat) (ok : Nat → Bool) (s : CtrlState),
      5000 ≤ ulSub now s.lastUpdate → s.triggered = false →
      (sensorsPeriodic now ok s).1.trgHFSWarn = false ∧
      (sensorsPeriodic now ok s).1.trgHFSCritical = false ∧
      (sensorsPeriodic now ok s).1.trgVFSPipe = false ∧
      (sensorsPeriodic now ok s).1.trgPump = false) ∧
    (∀ (t : Topic) (now : Nat) (ok : Nat → Bool) (s : CtrlState),
      countTopic t (sensorsForced ok s).2 ≤ 1 ∧
      countTopic t (sensorsPeriodic now ok s).2 ≤ 1) := by
  refine ⟨fun now ok ok2 s => ?_,
          fun ok s => ?_,
          sensorsPeriodic_clears,
          fun t now ok s => ⟨sf_count_le t ok s, sp_count_le t now ok s⟩⟩
  · exact ⟨(us_ok now ok ok2 s).1, (us_ok now ok ok2 s).2,
           (ufm_ok now ok ok2 s).1, (ufm_ok now ok ok2 s).2⟩
  · have h := sensorsForced_misc ok s
    exact ⟨h.1, h.2.1, h.2.2.1, h.2.2.2.1⟩

/-- C8 witness: with every publish failing, a pending warning flag is still
cleared by the periodic pass (gate open at 6 s uptime), the forced block
leaves a set pump flag set, and the resulting state equals the all-success
run. -/
theorem C8_publish_failure_policy_witness :
    5000 ≤ ulSub 6000
      ({ initState with trgHFSWarn := true } : CtrlState).lastUpdate ∧
    ({ initState with trgHFSWarn := true } : CtrlState).triggered = false ∧
    (sensorsPeriodic 6000 (fun _ => false)
      { initState with trgHFSWarn := true }).1.trgHFSWarn = false ∧
    (sensorsForced (fun _ => false)
      { initState with trgPump := true }).1.trgPump = true ∧
    (updateSensors 6000 (fun _ => false)
        { initState with trgHFSWarn := true }).1 =
      (updateSensors 6000 (fun _ => true)
        { initState with trgHFSWarn := true }).1 := by
  refine ⟨by decide, rfl, ?_, ?_, ?_⟩
  · exact (C8_publish_failure_policy.2.2.1 6000 (fun _ => false)
      { initState with trgHFSWarn := true } (by decide) rfl).1
  · exact (C8_publish_failure_policy.2.1 (fun _ => false)
      { initState with trgPump := true }).1
  · exact (C8_publish_failure_policy.1 6000 (fun _ => false) (fun _ => true)
      { initState with trgHFSWarn := true }).1

end Hydro
